import Mathlib

/-!
# gometa: observer queue, watcher supervisor and message factory

A shallow embedding of four source files of the repository

* `common/constant.go`  : the tunable constants,
* `protocol/observer.go` : the per-peer packet queue,
* `protocol/watcherServer.go` : the watcher supervisor and its retry loop,
* `message/factory.go` : the concrete message factory,

followed by the properties established about them.

Conventions of the embedding.

* A Go channel is its buffer: a list, oldest value first, or a counter when
  only the number of values matters.  A receive takes the first element, a
  send appends.  An operation that would park the goroutine for ever is an
  explicit result (`none`, or `Res.blocked`).
* A Go interface value or pointer that may be `nil` is an `Option`.
* A `select` is resolved from the set of cases that are ready, in source
  order, and a number that stands for the choice of the Go runtime among them.
* A `panic` is an explicit result; `recover` in a deferred function turns it
  into a normal return of the named results.
-/

namespace Gometa

/-! ## common/constant.go -/

/-- Maximum number of proposals: `var MAX_PROPOSALS = 1000`. -/
def MAX_PROPOSALS : Nat := 1000

/-- Backoff time for retry in milliseconds: `var RETRY_BACKOFF time.Duration = 100`. -/
def RETRY_BACKOFF : Int := 100

/-- Max backoff time for retry in milliseconds: `var MAX_RETRY_BACKOFF time.Duration = 10000`. -/
def MAX_RETRY_BACKOFF : Int := 10000

/-- The constant `time.Millisecond`, a `time.Duration` counted in nanoseconds. -/
def Millisecond : Int := 1000000

/-- Two's complement wrap-around of a 64 bit signed integer (`time.Duration` is an
`int64`): `(x + 2^63) mod 2^64 - 2^63`. -/
def wrapInt64 (x : Int) : Int :=
  (x + 9223372036854775808) % 18446744073709551616 - 9223372036854775808

/-! ## protocol/observer.go -/

/-- A `common.Packet` is an interface value: `none` is the `nil` packet, `some n`
a packet with identity `n`. -/
abbrev Packet := Option Nat

/-- The struct `observer`.  `packets` is the buffer of the channel
`make(chan common.Packet, common.MAX_PROPOSALS)`, oldest packet first; `readych`
is the buffer of `make(chan bool, 1)`.  The mutex carries no data. -/
structure observer where
  packets : List Packet
  head : Packet
  isPause : Bool
  readych : List Bool
deriving DecidableEq, Repr

/-- The constructor `NewObserver()`. -/
def NewObserver : observer :=
  { packets := [], head := none, isPause := false, readych := [] }

/-- The method `observer.send`: the channel send `o.packets <- msg`.  The send
completes when the buffer has room; with `MAX_PROPOSALS` packets buffered it parks
the caller, which is the result `none`. -/
def send (o : observer) (msg : Packet) : Option observer :=
  if o.packets.length < MAX_PROPOSALS then
    some { o with packets := o.packets ++ [msg] }
  else
    none

/-- The method `observer.getNext`, returning the packet and the new state. -/
def getNext (o : observer) : Packet × observer :=
  if o.head ≠ none then
    (o.head, { o with head := none })
  else
    match o.packets with
    | packet :: rest => (packet, { o with packets := rest })
    | [] => (none, o)

/-- The method `observer.hasData`: `len(o.packets) != 0`. -/
def hasData (o : observer) : Bool :=
  o.packets.length != 0

/-- The method `observer.peekFirst`, returning the packet and the new state. -/
def peekFirst (o : observer) : Packet × observer :=
  if o.head ≠ none then
    (o.head, o)
  else
    match o.packets with
    | packet :: rest => (packet, { o with packets := rest, head := packet })
    | [] => (none, o)

/-- The states an observer can be in: those obtained from `NewObserver()` by calls
of `send` (that complete), `peekFirst`, `getNext` and `hasData`. -/
inductive Reachable : observer → Prop
  | fresh : Reachable NewObserver
  | afterSend {o o1 : observer} {msg : Packet} :
      Reachable o → send o msg = some o1 → Reachable o1
  | afterPeekFirst {o : observer} : Reachable o → Reachable (peekFirst o).2
  | afterGetNext {o : observer} : Reachable o → Reachable (getNext o).2
  | afterHasData {o : observer} {b : Bool} : Reachable o → hasData o = b → Reachable o

/-- Number of packets the observer holds and has not delivered: the channel
buffer, and one more when a packet is parked in `head`. -/
def undelivered (o : observer) : Nat :=
  o.packets.length + (if o.head ≠ none then 1 else 0)

/-- A call made on an observer. -/
inductive Op where
  | send (msg : Packet)
  | peekFirst
  | getNext
deriving DecidableEq, Repr

/-- Whether a call is a `peekFirst`. -/
def Op.isPeek : Op → Bool
  | .peekFirst => true
  | _ => false

/-- Run a sequence of calls in order.  The result is the final state and the
packets returned by the `getNext` calls, in call order; `none` when a `send`
parks. -/
def runOps : observer → List Op → Option (observer × List Packet)
  | o, [] => some (o, [])
  | o, .send msg :: ops =>
    match send o msg with
    | none => none
    | some o1 => runOps o1 ops
  | o, .peekFirst :: ops => runOps (peekFirst o).2 ops
  | o, .getNext :: ops =>
    match runOps (getNext o).2 ops with
    | none => none
    | some (o1, outs) => some (o1, (getNext o).1 :: outs)

/-- The abstract content of the observer as the specification describes it:
the head, if present, followed by the buffered packets. -/
def content (o : observer) : List Packet :=
  (match o.head with
   | none => []
   | some n => [some n]) ++ o.packets

/-- The observer that has buffered `n` copies of the packet `some 0`. -/
def filled (n : Nat) : observer :=
  { packets := List.replicate n (some 0), head := none, isPause := false, readych := [] }

/-! ## protocol/watcherServer.go -/

/-- Outcome of a Go call: it returns a value, it panics, or it never returns. -/
inductive Res (α : Type) where
  | ret (a : α)
  | panic
  | blocked
deriving DecidableEq, Repr

/-- The lines the watcher server writes with `log.Printf`, one constructor for
each call site (the diagnostic stack dumps under `common.Debug()` are left out). -/
inductive LogMsg where
  /-- Line "panic in WatcherServer.runOnce() : %s" -/
  | runOncePanic
  /-- Line "WatcherServer.runOnce() error : %s" -/
  | runOnceError
  /-- Line "WatcherServer.runOnce() : Watcher successfully created TCP connection to peer %s" -/
  | runOnceConnected
  /-- Line "WatcherServer.runOnce() : Watcher terminated unexpectedly." -/
  | runOnceWatcherTerminated
  /-- Line "WatcherServer.runOnce() : Watcher fail to synchronized with peer %s" -/
  | runOnceSyncFailed
  /-- Line "WatcherServer.syncWithPeer(): Watcher start synchronization with peer (TCP %s)" -/
  | syncStart
  /-- Line "WatcherServer.syncWithPeer(): Watcher done synchronization with peer (TCP %s)" -/
  | syncDone
  /-- Line "WatcherServer.syncWithPeer(): Recieve kill singal. ..." -/
  | syncKill
  /-- Line "panic in findPeerToConnect() : %s" -/
  | findPeerPanic
  /-- Line "WatcherServer.findPeerToConnect() error : %s" -/
  | findPeerError
  /-- Line "WatcherServer.findPeerToConnect: Election Site is in progress or is closed." -/
  | findPeerInProgress
  /-- Line "WatcherServer.findPeerToConnect: Election Fails" -/
  | findPeerElectionFails
  /-- Line "WatcherServer.findPeerToConnect : Cannot find matching port for peer. ..." -/
  | findPeerNoMatch
  /-- Line "WatcherServer.runWatcher(): Start Watcher Protocol" -/
  | watcherStart
  /-- Line "WatcherServer.processRequest(): fail to send client request to leader. Terminate." -/
  | watcherForwardFail
  /-- Line "WatcherServer.processRequest(): channel for receiving client request is closed. Terminate." -/
  | watcherRequestClosed
  /-- Line "WatcherServer.runTillEnd(): receive kill signal. Terminate." -/
  | watcherKill
  /-- Line "WatcherServer.runTillEnd(): Watcher go-routine terminates. Terminate." -/
  | watcherDone
deriving DecidableEq, Repr

/-- What the supervisor can observe and change outside its own variables.
`killch` is the number of kill signals waiting on the kill channel, `readych` the
number of values written to the ready channel, `timers` the durations
(nanoseconds) handed to `time.NewTimer`, in order, `connects` the number of
calls of `createConnection`, `log` the lines logged, oldest first. -/
structure World where
  killch : Nat
  readych : Nat
  timers : List Int
  connects : Nat
  log : List LogMsg
deriving DecidableEq, Repr

/-- One call of `log.Printf`. -/
def World.printf (w : World) (m : LogMsg) : World :=
  { w with log := w.log ++ [m] }

/-- The struct `sync.Once`: its `done` flag. -/
structure Once where
  done : Bool
deriving DecidableEq, Repr

/-- The method `sync.Once.Do` on the variable `once`: `f` runs when `done` is not
set, and `done` is set when `f` has returned.  The result is the new value of
that variable and the world, `none` when `f` never returns. -/
def Once.Do (once : Once) (f : World → Option World) (w : World) : Option (Once × World) :=
  if once.done then
    some (once, w)
  else
    match f w with
    | none => none
    | some w1 => some ({ done := true }, w1)

/-- The case a `select` runs: `ready` lists the cases that can proceed, in
source order, and `choice` stands for the pick of the runtime among them.
With no case ready the `select` waits, which is `none`. -/
def selectCase {α : Type} (ready : List α) (choice : Nat) : Option α :=
  ready[choice % ready.length]?

/-- What `createConnection(peer)` does: returns a connection, returns an error,
or panics. -/
inductive ConnResult where
  | ok
  | err
  | panic
deriving DecidableEq, Repr

/-- Environment of one call of `syncWithPeer`: whether setting up the sync proxy
panics, the value the proxy has pushed to `donech` (if any), the pick of the
runtime in the `select`, and whether the deferred `proxy.Terminate()` panics. -/
structure SyncEnv where
  panics : Bool
  donech : Option Bool
  choice : Nat
  terminatePanics : Bool
deriving DecidableEq, Repr

/-- Environment of one pass through the `select` of `runWatcher`: what is ready
on `incomings` (`none` nothing, `some none` the channel is closed, `some (some h)`
the request handle `h`), whether handling the request panics, the result of
`watcher.ForwardRequest`, whether `donech` is ready, and the pick of the runtime. -/
structure WatchSelect where
  incomings : Option (Option Nat)
  handlePanics : Bool
  forwardOk : Bool
  donech : Bool
  choice : Nat
deriving DecidableEq, Repr

/-- Environment of one call of `runWatcher`: whether starting the watcher
panics, whether the send on `readych` can complete (buffer space or a waiting
receiver), the passes through the `select` (after the last pass listed nothing
arrives on `incomings` or `donech` any more), and whether the deferred
`watcher.Terminate()` panics. -/
structure WatchEnv where
  startPanics : Bool
  readyAccepts : Bool
  selects : List WatchSelect
  terminatePanics : Bool
deriving DecidableEq, Repr

/-- Environment of one call of `runOnce`. -/
structure CycleEnv where
  conn : ConnResult
  sync : SyncEnv
  watch : WatchEnv
deriving DecidableEq, Repr

/-- The cases of the `select` in `syncWithPeer`. -/
inductive SyncCase where
  | done (success : Bool)
  | kill
deriving DecidableEq, Repr

/-- The `select` of `syncWithPeer`: `case success = <-donech` is ready when the
proxy has pushed a value, `case <-killch` when a kill signal waits. -/
def syncSelect (e : SyncEnv) (w : World) : Option SyncCase :=
  selectCase
    ((match e.donech with
      | some success => [SyncCase.done success]
      | none => []) ++
     (if 0 < w.killch then [SyncCase.kill] else []))
    e.choice

/-- A deferred call that runs when the function returns or panics, and that may
panic itself: the caller then sees a panic instead of the return values. -/
def deferred {α : Type} (panics : Bool) (r : Res α × World) : Res α × World :=
  match r with
  | (.ret a, w) => if panics then (.panic, w) else (.ret a, w)
  | (.panic, w) => (.panic, w)
  | (.blocked, w) => (.blocked, w)

/-- The function `syncWithPeer`, returning `(success, isKilled)`.  The proxy is
created before `defer proxy.Terminate()` is registered. -/
def syncWithPeer (e : SyncEnv) (w : World) : Res (Bool × Bool) × World :=
  let w := w.printf .syncStart
  if e.panics then
    (.panic, w)
  else
    deferred e.terminatePanics
      (match syncSelect e w with
       | none => (.blocked, w)
       | some (.done success) =>
         let w := if success then w.printf .syncDone else w
         (.ret (success, false), w)
       | some .kill =>
         (.ret (false, true), { w with killch := w.killch - 1 }.printf .syncKill))

/-- The cases of the `select` in `runWatcher`. -/
inductive WatchCase where
  | incoming (handle : Option Nat)
  | kill
  | done
deriving DecidableEq, Repr

/-- The `select` of `runWatcher`.  `requestMgr` tells whether the request manager
is non-nil; when it is nil `incomings` is a fresh channel on which nothing is ever
ready. -/
def watchSelect (requestMgr : Bool) (e : WatchSelect) (w : World) : Option WatchCase :=
  selectCase
    ((if requestMgr then
        (match e.incomings with
         | some handle => [WatchCase.incoming handle]
         | none => [])
      else []) ++
     (if 0 < w.killch then [WatchCase.kill] else []) ++
     (if e.donech then [WatchCase.done] else []))
    e.choice

/-- The `for { select { ... } }` loop of `runWatcher`, one list element for each
pass through the `select`.  After the last pass listed neither `incomings` nor
`donech` becomes ready any more: the `select` then takes `case <-killch` when a kill
signal waits, and waits for ever otherwise. -/
def watcherLoop (requestMgr : Bool) : List WatchSelect → World → Res Bool × World
  | [], w =>
    if 0 < w.killch then
      (.ret true, { w with killch := w.killch - 1 }.printf .watcherKill)
    else
      (.blocked, w)
  | e :: es, w =>
    match watchSelect requestMgr e w with
    | none => (.blocked, w)
    | some (.incoming (some _)) =>
      if e.handlePanics then
        (.panic, w)
      else if !e.forwardOk then
        (.ret false, w.printf .watcherForwardFail)
      else
        watcherLoop requestMgr es w
    | some (.incoming none) => (.ret false, w.printf .watcherRequestClosed)
    | some .kill => (.ret true, { w with killch := w.killch - 1 }.printf .watcherKill)
    | some .done => (.ret false, w.printf .watcherDone)

/-- The function `runWatcher`.  `once` is a parameter of type `sync.Once` passed
by value: `once.Do` works on the copy, which is dropped when the function returns.
The watcher is created and started before `defer watcher.Terminate()` is
registered. -/
def runWatcher (e : WatchEnv) (requestMgr : Bool) (once : Once) (w : World) :
    Res Bool × World :=
  let w := w.printf .watcherStart
  if e.startPanics then
    (.panic, w)
  else
    deferred e.terminatePanics
      (match once.Do
          (fun w => if e.readyAccepts then some { w with readych := w.readych + 1 } else none)
          w with
       | none => (.blocked, w)
       | some (_, w) => watcherLoop requestMgr e.selects w)

/-- The body of `runOnce` without its deferred `recover`: the outcome, the value
the named result `isKilled` holds when the body stops, and the world.  `once` is
again a by-value parameter. -/
def runOnceBody (c : CycleEnv) (requestMgr : Bool) (once : Once) (w : World) :
    Res Bool × Bool × World :=
  let w := { w with connects := w.connects + 1 }
  match c.conn with
  | .panic => (.panic, false, w)
  | .err => (.ret false, false, w.printf .runOnceError)
  | .ok =>
    let w := w.printf .runOnceConnected
    match syncWithPeer c.sync w with
    | (.panic, w) => (.panic, false, w)
    | (.blocked, w) => (.blocked, false, w)
    | (.ret (success, isKilled), w) =>
      if success then
        match runWatcher c.watch requestMgr once w with
        | (.panic, w) => (.panic, isKilled, w)
        | (.blocked, w) => (.blocked, isKilled, w)
        | (.ret r, w) =>
          if !r then
            (.ret false, false, w.printf .runOnceWatcherTerminated)
          else
            (.ret true, true, w)
      else if !isKilled then
        (.ret false, false, w.printf .runOnceSyncFailed)
      else
        (.ret true, true, w)

/-- The function `runOnce`: its body under the deferred `recover`, which logs a
panic and lets the function return the named result `isKilled`.  `none` when the
call never returns. -/
def runOnce (c : CycleEnv) (requestMgr : Bool) (once : Once) (w : World) :
    Option Bool × World :=
  match runOnceBody c requestMgr once w with
  | (.ret r, _, w) => (some r, w)
  | (.panic, isKilled, w) => (some isKilled, w.printf .runOncePanic)
  | (.blocked, _, w) => (none, w)

/-- How far a supervisor has got: still in its retry loop when the listed
cycles are used up, returned, or parked for ever inside a cycle. -/
inductive Status where
  | running
  | returned
  | blocked
deriving DecidableEq, Repr

/-- State of a supervisor: status, the local variable `backoff` (milliseconds)
and the world. -/
structure Supervisor where
  status : Status
  backoff : Int
  world : World
deriving DecidableEq, Repr

/-- The statements `timer := time.NewTimer(backoff * time.Millisecond); <-timer.C`. -/
def sleep (backoff : Int) (w : World) : World :=
  { w with timers := w.timers ++ [wrapInt64 (backoff * Millisecond)] }

/-- The statements `backoff += backoff; if backoff > MAX_RETRY_BACKOFF { backoff = MAX_RETRY_BACKOFF }`. -/
def nextBackoff (backoff : Int) : Int :=
  let backoff := wrapInt64 (backoff + backoff)
  if backoff > MAX_RETRY_BACKOFF then MAX_RETRY_BACKOFF else backoff

/-- The `for retry { ... }` loop of `RunWatcherServerWithRequest`, one list element
for each cycle the environment provides. -/
def requestLoop (requestMgr : Bool) (once : Once) : Int → List CycleEnv → World → Supervisor
  | backoff, [], w => { status := .running, backoff := backoff, world := w }
  | backoff, c :: cs, w =>
    match runOnce c requestMgr once w with
    | (none, w1) => { status := .blocked, backoff := backoff, world := w1 }
    | (some true, w1) => { status := .returned, backoff := backoff, world := w1 }
    | (some false, w1) =>
      requestLoop requestMgr once (nextBackoff backoff) cs (sleep backoff w1)

/-- The function `RunWatcherServerWithRequest`. -/
def RunWatcherServerWithRequest (requestMgr : Bool) (cs : List CycleEnv) (w : World) :
    Supervisor :=
  requestLoop requestMgr { done := false } RETRY_BACKOFF cs w

/-- The function `RunWatcherServer`: no request manager. -/
def RunWatcherServer (cs : List CycleEnv) (w : World) : Supervisor :=
  RunWatcherServerWithRequest false cs w

/-- Environment of one call of `findPeerToConnect`: whether creating or starting
the election site panics, whether `CreateElectionSite` returns an error, whether
`StartElection` returns nil, what is ready on the result channel (`none` nothing,
`some none` the channel is closed, `some (some l)` the leader `l`), and the pick
of the runtime in the `select`. -/
structure ElectionEnv where
  panics : Bool
  siteErr : Bool
  startNil : Bool
  resultCh : Option (Option String)
  choice : Nat
deriving DecidableEq, Repr

/-- The cases of the `select` in `findPeerToConnect`. -/
inductive ElectCase where
  | result (leader : Option String)
  | kill
deriving DecidableEq, Repr

/-- The loop `for i, peer := range peerUDP { if peer == leader { return peerTCP[i], false } }`
from index `i` on: `none` when the loop ends without returning, `Res.panic` when
`peerTCP[i]` is out of range. -/
def matchPeer (leader : String) (peerTCP : List String) : List String → Nat → Option (Res String)
  | [], _ => none
  | peer :: rest, i =>
    if peer = leader then
      match peerTCP[i]? with
      | some addr => some (.ret addr)
      | none => some .panic
    else
      matchPeer leader peerTCP rest (i + 1)

/-- The `select` of `findPeerToConnect`: `case leader, ok := <-resultCh` is ready
when the election has sent a leader or closed the channel, `case <-killch` when a
kill signal waits. -/
def electSelect (e : ElectionEnv) (w : World) : Option ElectCase :=
  selectCase
    ((match e.resultCh with
      | some r => [ElectCase.result r]
      | none => []) ++
     (if 0 < w.killch then [ElectCase.kill] else []))
    e.choice

/-- The body of `findPeerToConnect` without its deferred `recover`. -/
def findPeerToConnectBody (e : ElectionEnv) (peerUDP peerTCP : List String) (w : World) :
    Res (String × Bool) × World :=
  if e.panics then
    (.panic, w)
  else if e.siteErr then
    (.ret ("", false), w.printf .findPeerError)
  else if e.startNil then
    (.ret ("", false), w.printf .findPeerInProgress)
  else
    match electSelect e w with
    | none => (.blocked, w)
    | some (.result none) => (.ret ("", false), w.printf .findPeerElectionFails)
    | some (.result (some leader)) =>
      match matchPeer leader peerTCP peerUDP 0 with
      | some (.ret addr) => (.ret (addr, false), w)
      | some .panic => (.panic, w)
      | some .blocked => (.blocked, w)
      | none => (.ret ("", false), w.printf .findPeerNoMatch)
    | some .kill => (.ret ("", true), { w with killch := w.killch - 1 })

/-- The function `findPeerToConnect`: its body under the deferred `recover`.  A
panic leaves the named results `leader` and `isKilled` at their zero values, which
are then returned.  `none` when the call never returns. -/
def findPeerToConnect (e : ElectionEnv) (peerUDP peerTCP : List String) (w : World) :
    Option (String × Bool) × World :=
  match findPeerToConnectBody e peerUDP peerTCP w with
  | (.ret r, w) => (some r, w)
  | (.panic, w) => (some ("", false), w.printf .findPeerPanic)
  | (.blocked, w) => (none, w)

/-- The `for retry { ... }` loop of `RunWatcherServerWithElection`. -/
def electionLoop (peerUDP peerTCP : List String) (requestMgr : Bool) (once : Once) :
    Int → List (ElectionEnv × CycleEnv) → World → Supervisor
  | backoff, [], w => { status := .running, backoff := backoff, world := w }
  | backoff, (e, c) :: cs, w =>
    match findPeerToConnect e peerUDP peerTCP w with
    | (none, w1) => { status := .blocked, backoff := backoff, world := w1 }
    | (some (peer, isKilled), w1) =>
      if isKilled then
        { status := .returned, backoff := backoff, world := w1 }
      else if peer ≠ "" then
        match runOnce c requestMgr once w1 with
        | (none, w2) => { status := .blocked, backoff := backoff, world := w2 }
        | (some true, w2) => { status := .returned, backoff := backoff, world := w2 }
        | (some false, w2) =>
          electionLoop peerUDP peerTCP requestMgr once (nextBackoff backoff) cs (sleep backoff w2)
      else
        electionLoop peerUDP peerTCP requestMgr once (nextBackoff backoff) cs (sleep backoff w1)

/-- The function `RunWatcherServerWithElection`. -/
def RunWatcherServerWithElection (peerUDP peerTCP : List String) (requestMgr : Bool)
    (cs : List (ElectionEnv × CycleEnv)) (w : World) : Supervisor :=
  electionLoop peerUDP peerTCP requestMgr { done := false } RETRY_BACKOFF cs w

/-- The lines a call has appended to the log, given the world before and after. -/
def logged (before after : World) : List LogMsg :=
  after.log.drop before.log.length

/-- The backoff the specification gives for the `(n+1)`-th failed cycle, in
milliseconds: `min(100 * 2^n, 10000)`. -/
def backoffMs (n : Nat) : Int :=
  min (100 * 2 ^ n) 10000

/-! ## message/factory.go

The message structs are generated protobuf code declared outside the four files;
each struct below has the fields the factory sets in its composite literal.  Every
scalar field is a pointer (`proto.Uint32(v)` and its siblings allocate a copy of
`v` and return its address), modelled as an `Option` that is `none` for a field
the literal leaves out; `Content` is a byte slice.  The function `ProtoVersion()`
is declared outside the four files as well; the constructors take its value as
their first argument. -/

/-- The helper `proto.Uint32`. -/
def proto.Uint32 (v : Nat) : Option Nat := some v

/-- The helper `proto.Uint64`. -/
def proto.Uint64 (v : Nat) : Option Nat := some v

/-- The helper `proto.String`. -/
def proto.String (v : String) : Option String := some v

/-- The helper `proto.Bool`. -/
def proto.Bool (v : Bool) : Option Bool := some v

/-- The message `Proposal`. -/
structure Proposal where
  Version : Option Nat := none
  Txnid : Option Nat := none
  Fid : Option String := none
  ReqId : Option Nat := none
  OpCode : Option Nat := none
  Key : Option String := none
  Content : List Nat := []
deriving DecidableEq, Repr

/-- The message `Accept`. -/
structure Accept where
  Version : Option Nat := none
  Txnid : Option Nat := none
  Fid : Option String := none
deriving DecidableEq, Repr

/-- The message `Commit`. -/
structure Commit where
  Version : Option Nat := none
  Txnid : Option Nat := none
deriving DecidableEq, Repr

/-- The message `Abort`. -/
structure Abort where
  Version : Option Nat := none
  Fid : Option String := none
  ReqId : Option Nat := none
  Error : Option String := none
deriving DecidableEq, Repr

/-- The message `Response`. -/
structure Response where
  Version : Option Nat := none
  Fid : Option String := none
  ReqId : Option Nat := none
  Error : Option String := none
deriving DecidableEq, Repr

/-- The message `Vote`. -/
structure Vote where
  Version : Option Nat := none
  Round : Option Nat := none
  Status : Option Nat := none
  Epoch : Option Nat := none
  CndId : Option String := none
  CndLoggedTxnId : Option Nat := none
  CndCommittedTxnId : Option Nat := none
  Solicit : Option Bool := none
deriving DecidableEq, Repr

/-- The message `LogEntry`. -/
structure LogEntry where
  Version : Option Nat := none
  Txnid : Option Nat := none
  OpCode : Option Nat := none
  Key : Option String := none
  Content : List Nat := []
deriving DecidableEq, Repr

/-- The message `FollowerInfo`. -/
structure FollowerInfo where
  Version : Option Nat := none
  AcceptedEpoch : Option Nat := none
  Fid : Option String := none
  Voting : Option Bool := none
deriving DecidableEq, Repr

/-- The message `LeaderInfo`. -/
structure LeaderInfo where
  Version : Option Nat := none
  AcceptedEpoch : Option Nat := none
deriving DecidableEq, Repr

/-- The message `EpochAck`. -/
structure EpochAck where
  Version : Option Nat := none
  LastLoggedTxid : Option Nat := none
  CurrentEpoch : Option Nat := none
deriving DecidableEq, Repr

/-- The message `NewLeader`. -/
structure NewLeader where
  Version : Option Nat := none
  CurrentEpoch : Option Nat := none
deriving DecidableEq, Repr

/-- The message `NewLeaderAck`. -/
structure NewLeaderAck where
  Version : Option Nat := none
deriving DecidableEq, Repr

/-- The message `Request`. -/
structure Request where
  Version : Option Nat := none
  ReqId : Option Nat := none
  OpCode : Option Nat := none
  Key : Option String := none
  Content : List Nat := []
deriving DecidableEq, Repr

/-- The method `ConcreteMsgFactory.CreateProposal`. -/
def CreateProposal (ProtoVersion : Nat) (txnid : Nat) (fid : String) (reqId : Nat) (op : Nat)
    (key : String) (content : List Nat) : Proposal :=
  { Version := proto.Uint32 ProtoVersion,
    Txnid := proto.Uint64 txnid,
    Fid := proto.String fid,
    ReqId := proto.Uint64 reqId,
    OpCode := proto.Uint32 op,
    Key := proto.String key,
    Content := content }

/-- The method `ConcreteMsgFactory.CreateAccept`. -/
def CreateAccept (ProtoVersion : Nat) (txnid : Nat) (fid : String) : Accept :=
  { Version := proto.Uint32 ProtoVersion,
    Txnid := proto.Uint64 txnid,
    Fid := proto.String fid }

/-- The method `ConcreteMsgFactory.CreateCommit`. -/
def CreateCommit (ProtoVersion : Nat) (txnid : Nat) : Commit :=
  { Version := proto.Uint32 ProtoVersion,
    Txnid := proto.Uint64 txnid }

/-- The method `ConcreteMsgFactory.CreateAbort`. -/
def CreateAbort (ProtoVersion : Nat) (fid : String) (reqId : Nat) (err : String) : Abort :=
  { Version := proto.Uint32 ProtoVersion,
    Fid := proto.String fid,
    ReqId := proto.Uint64 reqId,
    Error := proto.String err }

/-- The method `ConcreteMsgFactory.CreateResponse`. -/
def CreateResponse (ProtoVersion : Nat) (fid : String) (reqId : Nat) (err : String) : Response :=
  { Version := proto.Uint32 ProtoVersion,
    Fid := proto.String fid,
    ReqId := proto.Uint64 reqId,
    Error := proto.String err }

/-- The method `ConcreteMsgFactory.CreateVote`. -/
def CreateVote (ProtoVersion : Nat) (round : Nat) (status : Nat) (epoch : Nat) (cndId : String)
    (loggedTxnId : Nat) (committedTxnId : Nat) (solicit : Bool) : Vote :=
  { Version := proto.Uint32 ProtoVersion,
    Round := proto.Uint64 round,
    Status := proto.Uint32 status,
    Epoch := proto.Uint32 epoch,
    CndId := proto.String cndId,
    CndLoggedTxnId := proto.Uint64 loggedTxnId,
    CndCommittedTxnId := proto.Uint64 committedTxnId,
    Solicit := proto.Bool solicit }

/-- The method `ConcreteMsgFactory.CreateLogEntry`. -/
def CreateLogEntry (ProtoVersion : Nat) (txnid : Nat) (opCode : Nat) (key : String)
    (content : List Nat) : LogEntry :=
  { Version := proto.Uint32 ProtoVersion,
    Txnid := proto.Uint64 txnid,
    OpCode := proto.Uint32 opCode,
    Key := proto.String key,
    Content := content }

/-- The method `ConcreteMsgFactory.CreateFollowerInfo`. -/
def CreateFollowerInfo (ProtoVersion : Nat) (epoch : Nat) (fid : String) (voting : Bool) :
    FollowerInfo :=
  { Version := proto.Uint32 ProtoVersion,
    AcceptedEpoch := proto.Uint32 epoch,
    Fid := proto.String fid,
    Voting := proto.Bool voting }

/-- The method `ConcreteMsgFactory.CreateLeaderInfo`. -/
def CreateLeaderInfo (ProtoVersion : Nat) (epoch : Nat) : LeaderInfo :=
  { Version := proto.Uint32 ProtoVersion,
    AcceptedEpoch := proto.Uint32 epoch }

/-- The method `ConcreteMsgFactory.CreateEpochAck`. -/
def CreateEpochAck (ProtoVersion : Nat) (txid : Nat) (epoch : Nat) : EpochAck :=
  { Version := proto.Uint32 ProtoVersion,
    LastLoggedTxid := proto.Uint64 txid,
    CurrentEpoch := proto.Uint32 epoch }

/-- The method `ConcreteMsgFactory.CreateNewLeader`. -/
def CreateNewLeader (ProtoVersion : Nat) (epoch : Nat) : NewLeader :=
  { Version := proto.Uint32 ProtoVersion,
    CurrentEpoch := proto.Uint32 epoch }

/-- The method `ConcreteMsgFactory.CreateNewLeaderAck`. -/
def CreateNewLeaderAck (ProtoVersion : Nat) : NewLeaderAck :=
  { Version := proto.Uint32 ProtoVersion }

/-- The method `ConcreteMsgFactory.CreateRequest`. -/
def CreateRequest (ProtoVersion : Nat) (reqid : Nat) (opCode : Nat) (key : String)
    (content : List Nat) : Request :=
  { Version := proto.Uint32 ProtoVersion,
    ReqId := proto.Uint64 reqid,
    OpCode := proto.Uint32 opCode,
    Key := proto.String key,
    Content := content }

/-- Observers whose channel holds no nil packet. -/
def NoNil (o : observer) : Prop := ∀ p ∈ o.packets, p ≠ none

/-- The state with a nil packet at the front of the channel. -/
def nilFirst : observer :=
  { packets := [none, some 7], head := none, isPause := false, readych := [] }

/-- The observer with `n` copies of the packet `some 0` in the channel and one
more parked in `head`. -/
def parked (n : Nat) : observer :=
  { packets := List.replicate n (some 0), head := some 0, isPause := false, readych := [] }

/-- The state reached from a full channel by `peekFirst` and one more `send`:
`MAX_PROPOSALS` packets in the channel and one in `head`. -/
def overfull : observer := parked MAX_PROPOSALS

/-- A cycle in which `createConnection` returns an error. -/
def connFails : CycleEnv :=
  { conn := .err,
    sync := { panics := false, donech := none, choice := 0, terminatePanics := false },
    watch :=
      { startPanics := false, readyAccepts := true, selects := [], terminatePanics := false } }

/-- A cycle that connects, synchronizes, enters the steady state, and whose
watcher then terminates (its done channel fires). -/
def watcherDies : CycleEnv :=
  { conn := .ok,
    sync := { panics := false, donech := some true, choice := 0, terminatePanics := false },
    watch :=
      { startPanics := false, readyAccepts := true,
        selects :=
          [{ incomings := none, handlePanics := false, forwardOk := true, donech := true,
             choice := 0 }],
        terminatePanics := false } }

/-- A cycle that connects and finds the synchronization still in progress. -/
def syncPending : CycleEnv :=
  { conn := .ok,
    sync := { panics := false, donech := none, choice := 0, terminatePanics := false },
    watch :=
      { startPanics := false, readyAccepts := true, selects := [], terminatePanics := false } }

/-- The world at the start of a run: `killch` kill signals waiting, nothing else
has happened. -/
def World.start (killch : Nat) : World :=
  { killch := killch, readych := 0, timers := [], connects := 0, log := [] }

/-- An election that emits the leader `"udp2"` while no kill signal is chosen. -/
def electsSecond : ElectionEnv :=
  { panics := false, siteErr := false, startNil := false, resultCh := some (some "udp2"),
    choice := 0 }

/-- The lines a call of `runOnce` that returns true can have logged. -/
def killedLogs : List (List LogMsg) :=
  [[.runOnceConnected, .syncStart, .syncKill],
   [.runOnceConnected, .syncStart, .syncDone, .watcherStart, .watcherKill]]

/-- The lines a call of `runOnce` that returns false can have logged. -/
def failedLogs : List (List LogMsg) :=
  [[.runOnceError],
   [.runOncePanic],
   [.runOnceConnected, .syncStart, .runOncePanic],
   [.runOnceConnected, .syncStart, .syncDone, .runOncePanic],
   [.runOnceConnected, .syncStart, .syncKill, .runOncePanic],
   [.runOnceConnected, .syncStart, .runOnceSyncFailed],
   [.runOnceConnected, .syncStart, .syncDone, .watcherStart, .runOncePanic],
   [.runOnceConnected, .syncStart, .syncDone, .watcherStart, .watcherKill, .runOncePanic],
   [.runOnceConnected, .syncStart, .syncDone, .watcherStart, .watcherForwardFail, .runOncePanic],
   [.runOnceConnected, .syncStart, .syncDone, .watcherStart, .watcherRequestClosed,
     .runOncePanic],
   [.runOnceConnected, .syncStart, .syncDone, .watcherStart, .watcherDone, .runOncePanic],
   [.runOnceConnected, .syncStart, .syncDone, .watcherStart, .watcherForwardFail,
     .runOnceWatcherTerminated],
   [.runOnceConnected, .syncStart, .syncDone, .watcherStart, .watcherRequestClosed,
     .runOnceWatcherTerminated],
   [.runOnceConnected, .syncStart, .syncDone, .watcherStart, .watcherDone,
     .runOnceWatcherTerminated]]

/-- The lines a call of `runOnce` that never returns can have logged. -/
def blockedLogs : List (List LogMsg) :=
  [[.runOnceConnected, .syncStart],
   [.runOnceConnected, .syncStart, .syncDone, .watcherStart]]

/-- A pass through the `select` of `runWatcher` in which a client request is
received and forwarded to the leader, so that the loop goes round again. -/
def forwards (requestMgr : Bool) (w : World) (p : WatchSelect) : Bool :=
  (match watchSelect requestMgr p w with
   | some (.incoming (some _)) => true
   | _ => false) && !p.handlePanics && p.forwardOk

/-- A pass through the `select` of `runWatcher` in which neither `incomings` nor
`donech` is ready, so that only `case <-killch` can proceed. -/
def onlyKill (requestMgr : Bool) (p : WatchSelect) : Bool :=
  (!requestMgr || p.incomings.isNone) && !p.donech

/-- The cycle connects, synchronizes with success and reaches the `select` loop of
`runWatcher`: `createConnection` returns a connection, the `select` of `syncWithPeer`
receives true from `donech`, the ready signal (if due) is accepted, and none of the
calls on the way panics. -/
def entersLoop (c : CycleEnv) (once : Once) (w : World) : Bool :=
  decide (c.conn = .ok) && !c.sync.panics &&
    decide (syncSelect c.sync w = some (.done true)) && !c.sync.terminatePanics &&
    !c.watch.startPanics && (once.done || c.watch.readyAccepts)

/-- The world in which the `select` loop of `runWatcher` starts, given the world
in which the cycle started. -/
def loopWorld (once : Once) (w : World) : World :=
  { killch := w.killch,
    readych := if once.done then w.readych else w.readych + 1,
    timers := w.timers,
    connects := w.connects + 1,
    log := w.log ++ [.runOnceConnected, .syncStart, .syncDone, .watcherStart] }

/-- A cycle in which a kill signal is taken by the `select` of `syncWithPeer` and
the deferred `proxy.Terminate()` then panics. -/
def killThenPanic : CycleEnv :=
  { conn := .ok,
    sync := { panics := false, donech := none, choice := 0, terminatePanics := true },
    watch :=
      { startPanics := false, readyAccepts := true, selects := [], terminatePanics := false } }

/-- A cycle that reaches the steady state and in whose `select` both `killch` and
the watcher's done channel can be ready; the runtime picks the done channel (and
before that, in `syncWithPeer`, the proxy's done channel). -/
def donePicked : CycleEnv :=
  { conn := .ok,
    sync := { panics := false, donech := some true, choice := 0, terminatePanics := false },
    watch :=
      { startPanics := false, readyAccepts := true,
        selects :=
          [{ incomings := none, handlePanics := false, forwardOk := true, donech := true,
             choice := 1 }],
        terminatePanics := false } }

/-- A cycle that reaches the steady state, forwards one client request, and then
finds nothing ready on `incomings` or `donech`. -/
def steadyThenIdle : CycleEnv :=
  { conn := .ok,
    sync := { panics := false, donech := some true, choice := 0, terminatePanics := false },
    watch :=
      { startPanics := false, readyAccepts := true,
        selects :=
          [{ incomings := some (some 5), handlePanics := false, forwardOk := true,
             donech := false, choice := 0 },
           { incomings := none, handlePanics := false, forwardOk := true, donech := false,
             choice := 0 }],
        terminatePanics := false } }

/-! ## Properties of the observer -/

theorem noNil_fresh : NoNil NewObserver := by
  intro p hp
  simp [NewObserver] at hp

theorem send_some {o o1 : observer} {msg : Packet} (h : send o msg = some o1) :
    o.packets.length < MAX_PROPOSALS ∧ o1 = { o with packets := o.packets ++ [msg] } := by
  unfold send at h
  split at h
  · rename_i hlt
    exact ⟨hlt, by simpa using h.symm⟩
  · simp at h

theorem send_of_lt (o : observer) (msg : Packet) (h : o.packets.length < MAX_PROPOSALS) :
    send o msg = some { o with packets := o.packets ++ [msg] } := by
  simp [send, h]

theorem content_send {o o1 : observer} {msg : Packet} (h : send o msg = some o1) :
    content o1 = content o ++ [msg] := by
  obtain ⟨-, rfl⟩ := send_some h
  simp [content]

theorem noNil_send {o o1 : observer} {n : Nat} (h : send o (some n) = some o1)
    (hn : NoNil o) : NoNil o1 := by
  obtain ⟨-, rfl⟩ := send_some h
  intro p hp
  simp at hp
  rcases hp with hp | hp
  · exact hn p hp
  · simp [hp]

theorem peekFirst_spec (o : observer) (hn : NoNil o) :
    content (peekFirst o).2 = content o ∧ NoNil (peekFirst o).2 ∧
      (peekFirst o).2.packets.length ≤ o.packets.length ∧
      (peekFirst o).1 = (content o).head?.join := by
  obtain ⟨packets, head, isPause, readych⟩ := o
  cases head with
  | some n => simpa [peekFirst, content] using hn
  | none =>
    cases packets with
    | nil => simpa [peekFirst, content] using hn
    | cons p rest =>
      have hp : p ≠ none := hn p (by simp)
      obtain ⟨n, rfl⟩ := Option.ne_none_iff_exists'.mp hp
      refine ⟨by simp [peekFirst, content], ?_, by simp [peekFirst], by simp [peekFirst, content]⟩
      intro q hq
      exact hn q (by simp [peekFirst] at hq; simp [hq])

theorem getNext_spec (o : observer) (hn : NoNil o) :
    (getNext o).1 = (content o).head?.join ∧ content (getNext o).2 = (content o).tail ∧
      NoNil (getNext o).2 ∧ (getNext o).2.packets.length ≤ o.packets.length := by
  obtain ⟨packets, head, isPause, readych⟩ := o
  cases head with
  | some n => simpa [getNext, content] using hn
  | none =>
    cases packets with
    | nil => simpa [getNext, content] using hn
    | cons p rest =>
      refine ⟨by simp [getNext, content], by simp [getNext, content], ?_, by simp [getNext]⟩
      intro q hq
      exact hn q (by simp [getNext] at hq; simp [hq])

theorem runOps_sends (post : List Op) :
    ∀ (pre : List Op) (o : observer) (ps : List Nat), NoNil o →
      pre.filter (fun op => !op.isPeek) = ps.map (fun n => Op.send (some n)) →
      o.packets.length + ps.length ≤ MAX_PROPOSALS →
      ∃ o1, runOps o (pre ++ post) = runOps o1 post ∧
        content o1 = content o ++ ps.map some ∧ NoNil o1 := by
  intro pre
  induction pre with
  | nil =>
    intro o ps hn hf _
    have hps : ps = [] := by
      cases ps with
      | nil => rfl
      | cons a t => simp at hf
    subst hps
    exact ⟨o, by simp, by simp, hn⟩
  | cons op pre ih =>
    intro o ps hn hf hlen
    cases op with
    | send msg =>
      cases ps with
      | nil => simp [Op.isPeek] at hf
      | cons a t =>
        simp only [Op.isPeek, Bool.not_false, List.filter_cons_of_pos, List.map_cons,
          List.cons.injEq, Op.send.injEq] at hf
        obtain ⟨rfl, hf⟩ := hf
        have hlt : o.packets.length < MAX_PROPOSALS := by
          simp only [List.length_cons] at hlen
          omega
        have hs := send_of_lt o (some a) hlt
        obtain ⟨o1, h1, h2, h3⟩ := ih _ t (noNil_send hs hn) hf (by
          simp only [List.length_append, List.length_cons, List.length_nil] at hlen ⊢
          omega)
        refine ⟨o1, ?_, ?_, h3⟩
        · simp only [List.cons_append, runOps, hs]
          exact h1
        · rw [h2, content_send hs]
          simp
    | peekFirst =>
      have hp := peekFirst_spec o hn
      have hf1 : pre.filter (fun op => !op.isPeek) = ps.map (fun n => Op.send (some n)) := by
        simpa [Op.isPeek] using hf
      obtain ⟨o1, h1, h2, h3⟩ := ih _ ps hp.2.1 hf1 (by omega)
      refine ⟨o1, ?_, ?_, h3⟩
      · simp only [List.cons_append, runOps]
        exact h1
      · rw [h2, hp.1]
    | getNext =>
      cases ps with
      | nil => simp [Op.isPeek] at hf
      | cons a t => simp [Op.isPeek] at hf

theorem runOps_drain :
    ∀ (post : List Op) (o : observer) (m : Nat), NoNil o →
      post.filter (fun op => !op.isPeek) = List.replicate m Op.getNext →
      ∃ o1, runOps o post =
          some (o1, (content o).take m ++ List.replicate (m - (content o).length) none) ∧
        content o1 = (content o).drop m ∧ NoNil o1 := by
  intro post
  induction post with
  | nil =>
    intro o m hn hf
    have hm : m = 0 := by
      cases m with
      | zero => rfl
      | succ k => simp [List.replicate_succ] at hf
    subst hm
    exact ⟨o, by simp [runOps], by simp, hn⟩
  | cons op post ih =>
    intro o m hn hf
    cases op with
    | send msg =>
      cases m with
      | zero => simp [Op.isPeek] at hf
      | succ k => simp [Op.isPeek, List.replicate_succ] at hf
    | peekFirst =>
      have hp := peekFirst_spec o hn
      have hf1 : post.filter (fun op => !op.isPeek) = List.replicate m Op.getNext := by
        simpa [Op.isPeek] using hf
      obtain ⟨o1, h1, h2, h3⟩ := ih _ m hp.2.1 hf1
      refine ⟨o1, ?_, ?_, h3⟩
      · simp only [runOps]
        rw [h1, hp.1]
      · rw [h2, hp.1]
    | getNext =>
      cases m with
      | zero => simp [Op.isPeek] at hf
      | succ k =>
        have hf1 : post.filter (fun op => !op.isPeek) = List.replicate k Op.getNext := by
          simpa [Op.isPeek, List.replicate_succ] using hf
        have hg := getNext_spec o hn
        obtain ⟨o1, h1, h2, h3⟩ := ih _ k hg.2.2.1 hf1
        refine ⟨o1, ?_, ?_, h3⟩
        · simp only [runOps, h1, hg.1, hg.2.1]
          cases hc : content o with
          | nil => simp [List.replicate_succ]
          | cons p rest =>
            have hp : p ≠ none := by
              have hmem : p ∈ content o := by simp [hc]
              unfold content at hmem
              rcases List.mem_append.mp hmem with h | h
              · cases hh : o.head with
                | none => simp [hh] at h
                | some n =>
                  simp [hh] at h
                  simp [h]
              · exact hn p h
            obtain ⟨n, rfl⟩ := Option.ne_none_iff_exists'.mp hp
            simp
        · rw [h2, hg.2.1]
          cases content o <;> simp

theorem content_eq_nil {o : observer} (h : content o = []) : o.head = none ∧ o.packets = [] := by
  unfold content at h
  cases hh : o.head with
  | none => simpa [hh] using h
  | some n => simp [hh] at h

/-- C5. The observer is a FIFO queue: when the non-nil packets `p1..pn`
(`n ≤ MAX_PROPOSALS`) are sent to a fresh observer, with `peekFirst` calls interleaved
at will, and `getNext` is then called `n + k` times, again with `peekFirst` calls
interleaved at will, every call completes, the `getNext` calls return `p1, ..., pn`
in send order, each once, followed by `k` times nil, and the observer ends empty. -/
theorem observer_fifo (ps : List Nat) (k : Nat) (pre post : List Op)
    (hlen : ps.length ≤ MAX_PROPOSALS)
    (hpre : pre.filter (fun op => !op.isPeek) = ps.map (fun n => Op.send (some n)))
    (hpost : post.filter (fun op => !op.isPeek) = List.replicate (ps.length + k) Op.getNext) :
    ∃ o, runOps NewObserver (pre ++ post) = some (o, ps.map some ++ List.replicate k none) ∧
      o.head = none ∧ o.packets = [] ∧ getNext o = (none, o) := by
  obtain ⟨o1, h1, h2, h3⟩ := runOps_sends post pre NewObserver ps noNil_fresh hpre (by
    simpa [NewObserver] using hlen)
  obtain ⟨o2, h4, h5, -⟩ := runOps_drain post o1 (ps.length + k) h3 hpost
  have hc : content o1 = ps.map some := by
    rw [h2]
    simp [content, NewObserver]
  rw [hc] at h4 h5
  have hempty : content o2 = [] := by
    rw [h5]
    simp
  obtain ⟨hh, hp⟩ := content_eq_nil hempty
  refine ⟨o2, ?_, hh, hp, ?_⟩
  · rw [h1, h4]
    simp
  · simp [getNext, hh, hp]

/-- Witness for C5: three packets sent with a `peekFirst` in between, then four
`getNext` calls around another `peekFirst`. -/
theorem observer_fifo_witness :
    ∃ o, runOps NewObserver
        ([Op.send (some 1), Op.peekFirst, Op.send (some 2), Op.send (some 3)] ++
          [Op.getNext, Op.peekFirst, Op.getNext, Op.getNext, Op.getNext]) =
        some (o, ([1, 2, 3] : List Nat).map some ++ List.replicate 1 none) ∧
      o.head = none ∧ o.packets = [] ∧ getNext o = (none, o) :=
  observer_fifo [1, 2, 3] 1 _ _ (by decide) (by decide) (by decide)

/-- C4, as amended. A packet returned by `peekFirst` is not consumed: in every
observer state, when `peekFirst` returns a non-nil packet, a `getNext` right
after it returns that packet, and a second `peekFirst` returns it too and leaves
the state as it is. When the channel holds no nil packet and `peekFirst` returns
nil, the observer is empty and its state is unchanged. -/
theorem peekFirst_does_not_consume (o : observer) :
    (∀ n, (peekFirst o).1 = some n →
        (getNext (peekFirst o).2).1 = some n ∧
          peekFirst (peekFirst o).2 = (some n, (peekFirst o).2)) ∧
      (NoNil o → (peekFirst o).1 = none →
        o.head = none ∧ o.packets = [] ∧ (peekFirst o).2 = o) := by
  obtain ⟨packets, head, isPause, readych⟩ := o
  cases head with
  | some a => simp [peekFirst, getNext]
  | none =>
    cases packets with
    | nil => simp [peekFirst]
    | cons p rest =>
      refine ⟨?_, ?_⟩
      · intro n hn
        simp only [peekFirst] at hn
        simp at hn
        subst hn
        simp [peekFirst, getNext]
      · intro hnn hp
        simp only [peekFirst] at hp
        simp at hp
        exact absurd hp (hnn p (by simp))

/-- Witness for C4: one packet parked in the channel. -/
theorem peekFirst_does_not_consume_witness :
    (∀ n, (peekFirst (filled 1)).1 = some n →
        (getNext (peekFirst (filled 1)).2).1 = some n ∧
          peekFirst (peekFirst (filled 1)).2 = (some n, (peekFirst (filled 1)).2)) ∧
      ((peekFirst NewObserver).1 = none →
        NewObserver.head = none ∧ NewObserver.packets = [] ∧
          (peekFirst NewObserver).2 = NewObserver) :=
  ⟨(peekFirst_does_not_consume (filled 1)).1,
    (peekFirst_does_not_consume NewObserver).2 noNil_fresh⟩

/-- C4, the claim as stated fails: in the state reached by `send(nil)` and
`send(p)`, `peekFirst` returns nil although the observer is not empty, and it
changes the state (the nil packet is taken off the channel). -/
theorem peekFirst_consumes_nil_packet :
    Reachable nilFirst ∧ (peekFirst nilFirst).1 = none ∧ nilFirst.packets ≠ [] ∧
      (peekFirst nilFirst).2 ≠ nilFirst := by
  refine ⟨?_, by decide, by decide, by decide⟩
  have h1 : Reachable { NewObserver with packets := [none] } :=
    @Reachable.afterSend _ _ none Reachable.fresh (by decide)
  exact @Reachable.afterSend _ _ (some 7) h1 (by decide)

theorem reachable_filled : ∀ n, n ≤ MAX_PROPOSALS → Reachable (filled n) := by
  intro n
  induction n with
  | zero =>
    intro _
    exact Reachable.fresh
  | succ k ih =>
    intro hk
    refine @Reachable.afterSend _ _ (some 0) (ih (by omega)) ?_
    rw [send_of_lt _ _ (by simp [filled]; omega)]
    simp [filled, List.replicate_succ']

theorem peekFirst_filled (n : Nat) : (peekFirst (filled (n + 1))).2 = parked n := by
  simp only [peekFirst, filled, parked, List.replicate_succ]
  simp

theorem reachable_parked (k : Nat) (hk : k + 1 ≤ MAX_PROPOSALS) :
    Reachable (parked (k + 1)) := by
  have h1 : Reachable (peekFirst (filled (k + 1))).2 :=
    Reachable.afterPeekFirst (reachable_filled (k + 1) hk)
  refine @Reachable.afterSend _ _ (some 0) h1 ?_
  rw [peekFirst_filled, send_of_lt _ _ (by
    simp only [parked, List.length_replicate]
    omega)]
  simp [parked, List.replicate_succ']

theorem reachable_overfull : Reachable overfull :=
  reachable_parked 999 (by decide)

/-- C6, the code at the failing input: the observer that has been sent
`MAX_PROPOSALS` packets is reachable, its channel is full, and one more `send`
does not complete. -/
theorem send_parks_on_full_channel :
    Reachable (filled MAX_PROPOSALS) ∧
      (filled MAX_PROPOSALS).packets.length = MAX_PROPOSALS ∧
      send (filled MAX_PROPOSALS) (some 0) = none := by
  refine ⟨reachable_filled _ (le_refl _), by simp only [filled, List.length_replicate], ?_⟩
  unfold send
  rw [if_neg]
  simp only [filled, List.length_replicate]
  exact lt_irrefl _

theorem peekFirst_length (o : observer) :
    (peekFirst o).2.packets.length ≤ o.packets.length := by
  obtain ⟨packets, head, isPause, readych⟩ := o
  cases head <;> cases packets <;> simp [peekFirst]

theorem getNext_length (o : observer) :
    (getNext o).2.packets.length ≤ o.packets.length := by
  obtain ⟨packets, head, isPause, readych⟩ := o
  cases head <;> cases packets <;> simp [getNext]

/-- C7, as amended. In every state reachable from `NewObserver()` by `send`,
`peekFirst`, `getNext` and `hasData`, the channel buffers at most `MAX_PROPOSALS`
packets, and the observer holds at most `MAX_PROPOSALS + 1` undelivered packets
when the packet parked in `head` is counted. -/
theorem observer_bounded (o : observer) (h : Reachable o) :
    o.packets.length ≤ MAX_PROPOSALS ∧ undelivered o ≤ MAX_PROPOSALS + 1 := by
  have hlen : o.packets.length ≤ MAX_PROPOSALS := by
    induction h with
    | fresh => simp [NewObserver]
    | afterSend _ hs _ =>
      obtain ⟨hlt, rfl⟩ := send_some hs
      simp only [List.length_append, List.length_cons, List.length_nil]
      omega
    | afterPeekFirst _ ih => exact le_trans (peekFirst_length _) ih
    | afterGetNext _ ih => exact le_trans (getNext_length _) ih
    | afterHasData _ _ ih => exact ih
  refine ⟨hlen, ?_⟩
  unfold undelivered
  split <;> omega

/-- Witness for C7: the bound at the state with a full channel and a parked head. -/
theorem observer_bounded_witness :
    Reachable overfull ∧ overfull.packets.length ≤ MAX_PROPOSALS ∧
      undelivered overfull ≤ MAX_PROPOSALS + 1 :=
  ⟨reachable_overfull, observer_bounded overfull reachable_overfull⟩

/-- C7, the claim as stated fails: after `MAX_PROPOSALS` sends, a `peekFirst` and
one more `send`, the observer holds `MAX_PROPOSALS + 1 = 1001` undelivered
packets. -/
theorem observer_holds_1001 :
    Reachable overfull ∧ undelivered overfull = 1001 ∧ ¬ undelivered overfull ≤ MAX_PROPOSALS := by
  have hu : undelivered overfull = MAX_PROPOSALS + 1 := by
    simp only [undelivered, overfull, parked, List.length_replicate]
    simp
  refine ⟨reachable_overfull, ?_, ?_⟩
  · rw [hu]
    rfl
  · rw [hu]
    exact Nat.not_succ_le_self _

theorem reachable_parked_zero : Reachable (parked 0) := by
  have h := Reachable.afterPeekFirst (reachable_filled 1 (by decide))
  rwa [peekFirst_filled] at h

/-- C11, the code at the failing input: after `send(p)` and `peekFirst()` the
packet is parked in `head` and the channel is empty. The state is reachable, it
holds one undelivered packet and `getNext` returns that packet, yet `hasData`
returns false. -/
theorem hasData_misses_parked_head :
    Reachable (parked 0) ∧ undelivered (parked 0) = 1 ∧
      (getNext (parked 0)).1 = some 0 ∧ hasData (parked 0) = false := by
  refine ⟨reachable_parked_zero, ?_, ?_, ?_⟩ <;> decide

/-! ## Properties of the watcher supervisor -/

/-- C1, the code at the failing input: two cycles that each reach the steady state
and whose watcher then terminates.  `runWatcher` is entered twice and the ready
signal is written to `readych` twice. -/
theorem readych_written_twice :
    (RunWatcherServerWithRequest false [watcherDies, watcherDies] (World.start 0)).world.readych = 2 ∧
      (RunWatcherServerWithRequest false [watcherDies, watcherDies] (World.start 0)).world.log =
        [.runOnceConnected, .syncStart, .syncDone, .watcherStart, .watcherDone,
          .runOnceWatcherTerminated,
         .runOnceConnected, .syncStart, .syncDone, .watcherStart, .watcherDone,
          .runOnceWatcherTerminated] ∧
      (RunWatcherServerWithElection ["udp1", "udp2"] ["tcp1", "tcp2"] false
        [(electsSecond, watcherDies), (electsSecond, watcherDies)]
        (World.start 0)).world.readych = 2 := by
  decide

theorem watcherLoop_spec (requestMgr : Bool) : ∀ (es : List WatchSelect) (w : World),
    watcherLoop requestMgr es w =
        (.ret true, { w with killch := w.killch - 1 }.printf .watcherKill) ∨
      (∃ m, (m = LogMsg.watcherForwardFail ∨ m = LogMsg.watcherRequestClosed ∨
          m = LogMsg.watcherDone) ∧
        watcherLoop requestMgr es w = (.ret false, w.printf m)) ∨
      watcherLoop requestMgr es w = (.panic, w) ∨
      watcherLoop requestMgr es w = (.blocked, w) := by
  intro es
  induction es with
  | nil =>
    intro w
    by_cases hk : 0 < w.killch <;> simp [watcherLoop, hk]
  | cons e es ih =>
    intro w
    unfold watcherLoop
    cases watchSelect requestMgr e w with
    | none => simp
    | some c =>
      cases c with
      | incoming handle =>
        cases handle with
        | none => simp
        | some h =>
          by_cases hp : e.handlePanics = true
          · simp [hp]
          · by_cases hf : e.forwardOk = true
            · simpa [hp, hf] using ih w
            · simp [hp, hf]
      | kill => simp
      | done => simp

theorem syncWithPeer_spec (e : SyncEnv) (w : World) :
    syncWithPeer e w = (.panic, w.printf .syncStart) ∨
      syncWithPeer e w = (.panic, (w.printf .syncStart).printf .syncDone) ∨
      syncWithPeer e w =
        (.panic,
          { w.printf .syncStart with killch := (w.printf .syncStart).killch - 1 }.printf
            .syncKill) ∨
      syncWithPeer e w = (.blocked, w.printf .syncStart) ∨
      syncWithPeer e w = (.ret (true, false), (w.printf .syncStart).printf .syncDone) ∨
      syncWithPeer e w = (.ret (false, false), w.printf .syncStart) ∨
      syncWithPeer e w =
        (.ret (false, true),
          { w.printf .syncStart with killch := (w.printf .syncStart).killch - 1 }.printf
            .syncKill) := by
  unfold syncWithPeer
  by_cases hp : e.panics = true
  · simp [hp]
  · cases ht : e.terminatePanics <;>
      cases h : syncSelect e (w.printf .syncStart) with
      | none => simp [hp, h, deferred]
      | some c =>
        cases c with
        | done success => cases success <;> simp [hp, h, deferred]
        | kill => simp [hp, h, deferred]

theorem runWatcher_spec (e : WatchEnv) (requestMgr : Bool) (once : Once) (w : World) :
    runWatcher e requestMgr once w = (.panic, w.printf .watcherStart) ∨
      runWatcher e requestMgr once w = (.blocked, w.printf .watcherStart) ∨
      ∃ n, n ≤ 1 ∧ runWatcher e requestMgr once w =
        deferred e.terminatePanics
          (watcherLoop requestMgr e.selects
            { w.printf .watcherStart with readych := w.readych + n }) := by
  unfold runWatcher Once.Do
  by_cases hp : e.startPanics = true
  · simp [hp]
  · by_cases hd : once.done = true
    · refine Or.inr (Or.inr ⟨0, by omega, ?_⟩)
      simp [hp, hd, World.printf]
    · by_cases ha : e.readyAccepts = true
      · refine Or.inr (Or.inr ⟨1, by omega, ?_⟩)
        simp [hp, hd, ha, World.printf]
      · simp [hp, hd, ha, deferred]

theorem deferred_watcherLoop_spec (panics : Bool) (requestMgr : Bool) (es : List WatchSelect)
    (w : World) :
    (∃ r, (r = Res.ret true ∨ r = Res.panic) ∧
        deferred panics (watcherLoop requestMgr es w) =
          (r, { w with killch := w.killch - 1 }.printf .watcherKill)) ∨
      (∃ r m, (r = Res.ret false ∨ r = Res.panic) ∧
        (m = LogMsg.watcherForwardFail ∨ m = LogMsg.watcherRequestClosed ∨
          m = LogMsg.watcherDone) ∧
        deferred panics (watcherLoop requestMgr es w) = (r, w.printf m)) ∨
      deferred panics (watcherLoop requestMgr es w) = (.panic, w) ∨
      deferred panics (watcherLoop requestMgr es w) = (.blocked, w) := by
  rcases watcherLoop_spec requestMgr es w with l | ⟨m, hm, l⟩ | l | l
  · rw [l]
    cases panics
    · exact Or.inl ⟨_, Or.inl rfl, rfl⟩
    · exact Or.inl ⟨_, Or.inr rfl, rfl⟩
  · rw [l]
    cases panics
    · exact Or.inr (Or.inl ⟨_, m, Or.inl rfl, hm, rfl⟩)
    · exact Or.inr (Or.inl ⟨_, m, Or.inr rfl, hm, rfl⟩)
  · rw [l]
    exact Or.inr (Or.inr (Or.inl rfl))
  · rw [l]
    exact Or.inr (Or.inr (Or.inr rfl))

theorem runOnce_spec (c : CycleEnv) (requestMgr : Bool) (once : Once) (w : World) :
    ∃ ms, (runOnce c requestMgr once w).2.log = w.log ++ ms ∧
      (runOnce c requestMgr once w).2.timers = w.timers ∧
      (runOnce c requestMgr once w).2.connects = w.connects + 1 ∧
      (((runOnce c requestMgr once w).1 = some true ∧ ms ∈ killedLogs) ∨
        ((runOnce c requestMgr once w).1 = some false ∧ ms ∈ failedLogs) ∨
        ((runOnce c requestMgr once w).1 = none ∧ ms ∈ blockedLogs)) := by
  unfold runOnce runOnceBody
  cases hc : c.conn with
  | panic => exact ⟨[.runOncePanic], by simp [World.printf, failedLogs]⟩
  | err => exact ⟨[.runOnceError], by simp [World.printf, failedLogs]⟩
  | ok =>
    simp only []
    rcases syncWithPeer_spec c.sync
        ({ w with connects := w.connects + 1 }.printf .runOnceConnected) with
      h | h | h | h | h | h | h
    · rw [h]
      exact ⟨[.runOnceConnected, .syncStart, .runOncePanic],
        by simp [World.printf, failedLogs]⟩
    · rw [h]
      exact ⟨[.runOnceConnected, .syncStart, .syncDone, .runOncePanic],
        by simp [World.printf, failedLogs]⟩
    · rw [h]
      exact ⟨[.runOnceConnected, .syncStart, .syncKill, .runOncePanic],
        by simp [World.printf, failedLogs]⟩
    · rw [h]
      exact ⟨[.runOnceConnected, .syncStart], by simp [World.printf, blockedLogs]⟩
    · rw [h]
      simp only [if_true]
      rcases runWatcher_spec c.watch requestMgr once
          (({ w with connects := w.connects + 1 }.printf .runOnceConnected).printf
            .syncStart |>.printf .syncDone) with g | g | ⟨n, -, g⟩
      · rw [g]
        exact ⟨[.runOnceConnected, .syncStart, .syncDone, .watcherStart, .runOncePanic],
          by simp [World.printf, failedLogs]⟩
      · rw [g]
        exact ⟨[.runOnceConnected, .syncStart, .syncDone, .watcherStart],
          by simp [World.printf, blockedLogs]⟩
      · rw [g]
        rcases deferred_watcherLoop_spec c.watch.terminatePanics requestMgr c.watch.selects _
          with ⟨r, hr, l⟩ | ⟨r, m, hr, hm, l⟩ | l | l
        · rw [l]
          rcases hr with rfl | rfl
          · exact ⟨[.runOnceConnected, .syncStart, .syncDone, .watcherStart, .watcherKill],
              by simp [World.printf, killedLogs]⟩
          · exact ⟨[.runOnceConnected, .syncStart, .syncDone, .watcherStart, .watcherKill,
              .runOncePanic], by simp [World.printf, failedLogs]⟩
        · rw [l]
          rcases hr with rfl | rfl
          · refine ⟨[.runOnceConnected, .syncStart, .syncDone, .watcherStart, m,
              .runOnceWatcherTerminated], ?_⟩
            rcases hm with rfl | rfl | rfl <;> simp [World.printf, failedLogs]
          · refine ⟨[.runOnceConnected, .syncStart, .syncDone, .watcherStart, m,
              .runOncePanic], ?_⟩
            rcases hm with rfl | rfl | rfl <;> simp [World.printf, failedLogs]
        · rw [l]
          exact ⟨[.runOnceConnected, .syncStart, .syncDone, .watcherStart, .runOncePanic],
            by simp [World.printf, failedLogs]⟩
        · rw [l]
          exact ⟨[.runOnceConnected, .syncStart, .syncDone, .watcherStart],
            by simp [World.printf, blockedLogs]⟩
    · rw [h]
      exact ⟨[.runOnceConnected, .syncStart, .runOnceSyncFailed],
        by simp [World.printf, failedLogs]⟩
    · rw [h]
      exact ⟨[.runOnceConnected, .syncStart, .syncKill], by simp [World.printf, killedLogs]⟩

theorem killedLogs_spec : ∀ ms ∈ killedLogs,
    (LogMsg.syncKill ∈ ms ∨ LogMsg.watcherKill ∈ ms) ∧ LogMsg.runOncePanic ∉ ms ∧
      ∀ m ∈ ms, ¬ (m = LogMsg.runOnceError ∨ m = LogMsg.runOnceSyncFailed ∨
        m = LogMsg.watcherDone ∨ m = LogMsg.watcherRequestClosed ∨
        m = LogMsg.watcherForwardFail ∨ m = LogMsg.runOncePanic) := by
  decide

theorem failedLogs_spec : ∀ ms ∈ failedLogs,
    ¬ ((LogMsg.syncKill ∈ ms ∨ LogMsg.watcherKill ∈ ms) ∧ LogMsg.runOncePanic ∉ ms) := by
  decide

theorem blockedLogs_spec : ∀ ms ∈ blockedLogs,
    ¬ (LogMsg.syncKill ∈ ms ∨ LogMsg.watcherKill ∈ ms) ∧
      ∀ m ∈ ms, ¬ (m = LogMsg.runOnceError ∨ m = LogMsg.runOnceSyncFailed ∨
        m = LogMsg.watcherDone ∨ m = LogMsg.watcherRequestClosed ∨
        m = LogMsg.watcherForwardFail ∨ m = LogMsg.runOncePanic) := by
  decide

theorem syncSelect_printf (e : SyncEnv) (w : World) (m : LogMsg) :
    syncSelect e (w.printf m) = syncSelect e w := rfl

theorem syncSelect_connects (e : SyncEnv) (w : World) (n : Nat) :
    syncSelect e { w with connects := n } = syncSelect e w := rfl

theorem watchSelect_killch (requestMgr : Bool) (p : WatchSelect) (w1 w2 : World)
    (h : w1.killch = w2.killch) : watchSelect requestMgr p w1 = watchSelect requestMgr p w2 := by
  unfold watchSelect
  rw [h]

theorem syncSelect_pending (e : SyncEnv) (w : World) (hk : 0 < w.killch)
    (hd : e.donech = none) : syncSelect e w = some .kill := by
  simp [syncSelect, selectCase, hk, hd, Nat.mod_one]

theorem watchSelect_pending (requestMgr : Bool) (p : WatchSelect) (w : World)
    (hk : 0 < w.killch) (ho : onlyKill requestMgr p = true) :
    watchSelect requestMgr p w = some .kill := by
  simp only [onlyKill, Bool.and_eq_true, Bool.or_eq_true, Bool.not_eq_true',
    Option.isNone_iff_eq_none] at ho
  obtain ⟨h1, h2⟩ := ho
  rcases h1 with h1 | h1 <;> simp [watchSelect, selectCase, hk, h1, h2, Nat.mod_one]

theorem deferred_false {α : Type} (r : Res α × World) : deferred false r = r := by
  rcases r with ⟨r, w⟩
  cases r <;> rfl

theorem syncWithPeer_done (e : SyncEnv) (w : World) (success : Bool) (hp : e.panics = false)
    (h : syncSelect e w = some (.done success)) :
    syncWithPeer e w =
      deferred e.terminatePanics
        (.ret (success, false),
          if success then (w.printf .syncStart).printf .syncDone else w.printf .syncStart) := by
  unfold syncWithPeer
  simp only [hp, Bool.false_eq_true, if_false, syncSelect_printf, h]

theorem syncWithPeer_kill (e : SyncEnv) (w : World) (hp : e.panics = false)
    (h : syncSelect e w = some .kill) :
    syncWithPeer e w =
      deferred e.terminatePanics
        (.ret (false, true),
          { killch := w.killch - 1, readych := w.readych, timers := w.timers,
            connects := w.connects, log := w.log ++ [.syncStart, .syncKill] }) := by
  unfold syncWithPeer
  simp only [hp, Bool.false_eq_true, if_false, syncSelect_printf, h]
  simp [World.printf]

theorem runOnce_sync_kill (c : CycleEnv) (requestMgr : Bool) (once : Once) (w : World)
    (hc : c.conn = .ok) (hp : c.sync.panics = false) (h : syncSelect c.sync w = some .kill) :
    runOnce c requestMgr once w =
      if c.sync.terminatePanics then
        (some false,
          { killch := w.killch - 1, readych := w.readych, timers := w.timers,
            connects := w.connects + 1,
            log := w.log ++ [.runOnceConnected, .syncStart, .syncKill, .runOncePanic] })
      else
        (some true,
          { killch := w.killch - 1, readych := w.readych, timers := w.timers,
            connects := w.connects + 1,
            log := w.log ++ [.runOnceConnected, .syncStart, .syncKill] }) := by
  unfold runOnce runOnceBody
  simp only [hc]
  rw [syncWithPeer_kill _ _ hp (by rw [syncSelect_printf, syncSelect_connects]; exact h)]
  cases c.sync.terminatePanics <;> simp [deferred, World.printf]

theorem runOnce_sync_failed (c : CycleEnv) (requestMgr : Bool) (once : Once) (w : World)
    (hc : c.conn = .ok) (hp : c.sync.panics = false)
    (h : syncSelect c.sync w = some (.done false)) :
    (runOnce c requestMgr once w).1 = some false := by
  unfold runOnce runOnceBody
  simp only [hc]
  rw [syncWithPeer_done _ _ false hp (by rw [syncSelect_printf, syncSelect_connects]; exact h)]
  cases c.sync.terminatePanics <;> simp [deferred, World.printf]

theorem runOnce_entersLoop (c : CycleEnv) (requestMgr : Bool) (once : Once) (w : World)
    (h : entersLoop c once w = true) :
    runOnce c requestMgr once w =
      match deferred c.watch.terminatePanics
          (watcherLoop requestMgr c.watch.selects (loopWorld once w)) with
      | (.ret true, w1) => (some true, w1)
      | (.ret false, w1) => (some false, w1.printf .runOnceWatcherTerminated)
      | (.panic, w1) => (some false, w1.printf .runOncePanic)
      | (.blocked, w1) => (none, w1) := by
  simp only [entersLoop, Bool.and_eq_true, decide_eq_true_eq, Bool.not_eq_true',
    Bool.or_eq_true] at h
  obtain ⟨⟨⟨⟨⟨hc, hp⟩, hs⟩, ht⟩, hw⟩, hr⟩ := h
  have hloop : runWatcher c.watch requestMgr once
      ((({ w with connects := w.connects + 1 }.printf .runOnceConnected).printf
        .syncStart).printf .syncDone) =
      deferred c.watch.terminatePanics
        (watcherLoop requestMgr c.watch.selects (loopWorld once w)) := by
    unfold runWatcher Once.Do loopWorld
    rcases hr with hd | ha
    · simp [hw, hd, World.printf]
    · cases hd : once.done <;> simp [hw, hd, ha, World.printf]
  unfold runOnce runOnceBody
  simp only [hc]
  rw [syncWithPeer_done _ _ true hp (by rw [syncSelect_printf, syncSelect_connects]; exact hs)]
  rw [ht, deferred_false]
  simp only [if_true]
  rw [hloop]
  generalize deferred c.watch.terminatePanics
      (watcherLoop requestMgr c.watch.selects (loopWorld once w)) = d
  rcases d with ⟨r, w1⟩
  cases r with
  | ret b => cases b <;> simp
  | panic => simp
  | blocked => simp

theorem watcherLoop_forwards (requestMgr : Bool) (w : World) :
    ∀ (pre rest : List WatchSelect), (∀ p ∈ pre, forwards requestMgr w p = true) →
      watcherLoop requestMgr (pre ++ rest) w = watcherLoop requestMgr rest w := by
  intro pre
  induction pre with
  | nil =>
    intro rest _
    rfl
  | cons p pre ih =>
    intro rest h
    have hp := h p (by simp)
    simp only [forwards, Bool.and_eq_true, Bool.not_eq_true'] at hp
    obtain ⟨⟨h1, h2⟩, h3⟩ := hp
    have hsel : ∃ x, watchSelect requestMgr p w = some (.incoming (some x)) := by
      revert h1
      cases watchSelect requestMgr p w with
      | none => simp
      | some c =>
        cases c with
        | incoming handle =>
          cases handle with
          | none => simp
          | some x =>
            intro _
            exact ⟨x, rfl⟩
        | kill => simp
        | done => simp
    obtain ⟨x, hx⟩ := hsel
    simp only [List.cons_append, watcherLoop, hx, h2, h3]
    simpa using ih rest (fun q hq => h q (by simp [hq]))

theorem forwards_loopWorld (requestMgr : Bool) (once : Once) (w : World) (p : WatchSelect) :
    forwards requestMgr (loopWorld once w) p = forwards requestMgr w p := by
  unfold forwards
  rw [watchSelect_killch requestMgr p (loopWorld once w) w rfl]

theorem runOnce_at_pass (c : CycleEnv) (requestMgr : Bool) (once : Once) (w : World)
    (pre rest : List WatchSelect) (h : entersLoop c once w = true)
    (hsel : c.watch.selects = pre ++ rest) (hpre : ∀ p ∈ pre, forwards requestMgr w p = true) :
    runOnce c requestMgr once w =
      match deferred c.watch.terminatePanics
          (watcherLoop requestMgr rest (loopWorld once w)) with
      | (.ret true, w1) => (some true, w1)
      | (.ret false, w1) => (some false, w1.printf .runOnceWatcherTerminated)
      | (.panic, w1) => (some false, w1.printf .runOncePanic)
      | (.blocked, w1) => (none, w1) := by
  rw [runOnce_entersLoop c requestMgr once w h, hsel,
    watcherLoop_forwards requestMgr (loopWorld once w) pre rest
      (fun p hp => by rw [forwards_loopWorld]; exact hpre p hp)]

theorem runOnce_loop_kill (c : CycleEnv) (requestMgr : Bool) (once : Once) (w : World)
    (pre rest : List WatchSelect) (h : entersLoop c once w = true)
    (hsel : c.watch.selects = pre ++ rest) (hpre : ∀ p ∈ pre, forwards requestMgr w p = true)
    (hkill : (rest = [] ∧ 0 < w.killch) ∨
      ∃ e es, rest = e :: es ∧ watchSelect requestMgr e w = some .kill) :
    runOnce c requestMgr once w =
      if c.watch.terminatePanics then
        (some false,
          { killch := w.killch - 1, readych := (loopWorld once w).readych, timers := w.timers,
            connects := w.connects + 1,
            log := w.log ++ [.runOnceConnected, .syncStart, .syncDone, .watcherStart,
              .watcherKill, .runOncePanic] })
      else
        (some true,
          { killch := w.killch - 1, readych := (loopWorld once w).readych, timers := w.timers,
            connects := w.connects + 1,
            log := w.log ++ [.runOnceConnected, .syncStart, .syncDone, .watcherStart,
              .watcherKill] }) := by
  rw [runOnce_at_pass c requestMgr once w pre rest h hsel hpre]
  have hl : watcherLoop requestMgr rest (loopWorld once w) =
      (.ret true, { loopWorld once w with killch := (loopWorld once w).killch - 1 }.printf
        .watcherKill) := by
    rcases hkill with ⟨rfl, hk⟩ | ⟨e, es, rfl, he⟩
    · have hk1 : 0 < (loopWorld once w).killch := hk
      simp [watcherLoop, hk1]
    · have he1 : watchSelect requestMgr e (loopWorld once w) = some .kill := by
        rw [watchSelect_killch requestMgr e (loopWorld once w) w rfl]
        exact he
      simp [watcherLoop, he1]
  rw [hl]
  cases c.watch.terminatePanics <;> simp [deferred, World.printf, loopWorld]

theorem runOnce_loop_fail (c : CycleEnv) (requestMgr : Bool) (once : Once) (w : World)
    (pre : List WatchSelect) (e : WatchSelect) (es : List WatchSelect)
    (h : entersLoop c once w = true)
    (hsel : c.watch.selects = pre ++ e :: es)
    (hpre : ∀ p ∈ pre, forwards requestMgr w p = true)
    (hfail : watchSelect requestMgr e w = some .done ∨
      watchSelect requestMgr e w = some (.incoming none) ∨
      ((∃ x, watchSelect requestMgr e w = some (.incoming (some x))) ∧
        (e.handlePanics = true ∨ e.forwardOk = false))) :
    (runOnce c requestMgr once w).1 = some false := by
  rw [runOnce_at_pass c requestMgr once w pre (e :: es) h hsel hpre]
  have hw := watchSelect_killch requestMgr e (loopWorld once w) w rfl
  rcases hfail with he | he | ⟨⟨x, he⟩, hp | hf⟩
  · simp only [watcherLoop, hw, he]
    cases c.watch.terminatePanics <;> simp [deferred]
  · simp only [watcherLoop, hw, he]
    cases c.watch.terminatePanics <;> simp [deferred]
  · simp only [watcherLoop, hw, he, hp, if_true]
    simp [deferred]
  · simp only [watcherLoop, hw, he, hf]
    cases e.handlePanics <;> cases c.watch.terminatePanics <;> simp [deferred]

theorem runOnce_killed_iff_logged (c : CycleEnv) (requestMgr : Bool) (once : Once) (w : World) :
    (runOnce c requestMgr once w).1 = some true ↔
      ((LogMsg.syncKill ∈ logged w (runOnce c requestMgr once w).2 ∨
          LogMsg.watcherKill ∈ logged w (runOnce c requestMgr once w).2) ∧
        LogMsg.runOncePanic ∉ logged w (runOnce c requestMgr once w).2) := by
  obtain ⟨ms, hlog, -, -, hshape⟩ := runOnce_spec c requestMgr once w
  have hl : logged w (runOnce c requestMgr once w).2 = ms := by simp [logged, hlog]
  rw [hl]
  rcases hshape with ⟨hr, hm⟩ | ⟨hr, hm⟩ | ⟨hr, hm⟩
  · have := killedLogs_spec ms hm
    simp [hr, this.1, this.2.1]
  · have := failedLogs_spec ms hm
    simp only [hr]
    constructor
    · intro h
      simp at h
    · intro h
      exact absurd h this
  · have := (blockedLogs_spec ms hm).1
    simp only [hr]
    constructor
    · intro h
      simp at h
    · intro h
      exact absurd h.1 this

/-- C9, as amended. `runOnce` returns true exactly when the cycle ended because a
kill signal was received, in `syncWithPeer` or in `runWatcher`, and no panic was
recovered after it. A kill taken by the `select` of `syncWithPeer`, or by the
`select` of `runWatcher` after any number of forwarded requests, makes it return
true unless the deferred `Terminate()` panics; a pending kill is taken whenever no
other case of the `select` is ready. It returns false when `createConnection` fails
or panics, when setting up the synchronization panics, when the synchronization
reports failure, when the watcher's done channel fires, when the request channel is
closed, when `ForwardRequest` fails or handling the request panics, and whenever the
cycle has logged one of these failures or a recovered panic. -/
theorem runOnce_true_iff_kill_and_no_panic (c : CycleEnv) (requestMgr : Bool) (once : Once)
    (w : World) :
    ((runOnce c requestMgr once w).1 = some true ↔
        ((LogMsg.syncKill ∈ logged w (runOnce c requestMgr once w).2 ∨
            LogMsg.watcherKill ∈ logged w (runOnce c requestMgr once w).2) ∧
          LogMsg.runOncePanic ∉ logged w (runOnce c requestMgr once w).2)) ∧
      (c.conn = .ok → c.sync.panics = false → syncSelect c.sync w = some .kill →
        (runOnce c requestMgr once w).1 = some (!c.sync.terminatePanics) ∧
          LogMsg.syncKill ∈ logged w (runOnce c requestMgr once w).2 ∧
          (runOnce c requestMgr once w).2.killch = w.killch - 1) ∧
      (entersLoop c once w = true → ∀ pre rest, c.watch.selects = pre ++ rest →
        (∀ p ∈ pre, forwards requestMgr w p = true) →
        ((rest = [] ∧ 0 < w.killch) ∨
          ∃ e es, rest = e :: es ∧ watchSelect requestMgr e w = some .kill) →
        (runOnce c requestMgr once w).1 = some (!c.watch.terminatePanics) ∧
          LogMsg.watcherKill ∈ logged w (runOnce c requestMgr once w).2 ∧
          (runOnce c requestMgr once w).2.killch = w.killch - 1) ∧
      (0 < w.killch →
        (c.sync.donech = none → syncSelect c.sync w = some .kill) ∧
          ∀ p, onlyKill requestMgr p = true → watchSelect requestMgr p w = some .kill) ∧
      (c.conn = .err → (runOnce c requestMgr once w).1 = some false) ∧
      (c.conn = .panic → (runOnce c requestMgr once w).1 = some false) ∧
      (c.conn = .ok → c.sync.panics = true → (runOnce c requestMgr once w).1 = some false) ∧
      (c.conn = .ok → c.sync.panics = false → syncSelect c.sync w = some (.done false) →
        (runOnce c requestMgr once w).1 = some false) ∧
      (entersLoop c once w = true → ∀ pre e es, c.watch.selects = pre ++ e :: es →
        (∀ p ∈ pre, forwards requestMgr w p = true) →
        (watchSelect requestMgr e w = some .done ∨
          watchSelect requestMgr e w = some (.incoming none) ∨
          ((∃ x, watchSelect requestMgr e w = some (.incoming (some x))) ∧
            (e.handlePanics = true ∨ e.forwardOk = false))) →
        (runOnce c requestMgr once w).1 = some false) ∧
      (∀ m, m ∈ logged w (runOnce c requestMgr once w).2 →
        (m = LogMsg.runOnceError ∨ m = LogMsg.runOnceSyncFailed ∨ m = LogMsg.watcherDone ∨
          m = LogMsg.watcherRequestClosed ∨ m = LogMsg.watcherForwardFail ∨
          m = LogMsg.runOncePanic) →
        (runOnce c requestMgr once w).1 = some false) := by
  refine ⟨runOnce_killed_iff_logged c requestMgr once w, ?_, ?_, ?_, ?_, ?_, ?_, ?_, ?_, ?_⟩
  · intro hc hp hs
    rw [runOnce_sync_kill c requestMgr once w hc hp hs]
    cases c.sync.terminatePanics <;> simp [logged]
  · intro h pre rest hsel hpre hkill
    rw [runOnce_loop_kill c requestMgr once w pre rest h hsel hpre hkill]
    cases c.watch.terminatePanics <;> simp [logged]
  · intro hk
    exact ⟨fun hd => syncSelect_pending c.sync w hk hd,
      fun p hp => watchSelect_pending requestMgr p w hk hp⟩
  · intro h
    simp [runOnce, runOnceBody, h]
  · intro h
    simp [runOnce, runOnceBody, h]
  · intro hc hp
    simp [runOnce, runOnceBody, syncWithPeer, hc, hp]
  · intro hc hp hs
    exact runOnce_sync_failed c requestMgr once w hc hp hs
  · intro h pre e es hsel hpre hfail
    exact runOnce_loop_fail c requestMgr once w pre e es h hsel hpre hfail
  · obtain ⟨ms, hlog, -, -, hshape⟩ := runOnce_spec c requestMgr once w
    have hl : logged w (runOnce c requestMgr once w).2 = ms := by simp [logged, hlog]
    rw [hl]
    intro m hm hk
    rcases hshape with ⟨hr, hs⟩ | ⟨hr, -⟩ | ⟨hr, hs⟩
    · exact absurd hk ((killedLogs_spec ms hs).2.2 m hm)
    · exact hr
    · exact absurd hk ((blockedLogs_spec ms hs).2 m hm)

/-- Witness for C9: with a kill signal waiting, a cycle whose synchronization is
still in progress returns true from `syncWithPeer`, and a cycle that has reached the
steady state and forwarded one request returns true from `runWatcher`. -/
theorem runOnce_true_iff_kill_and_no_panic_witness :
    ((runOnce syncPending false { done := false } (World.start 1)).1 = some true ∧
        LogMsg.syncKill ∈
          logged (World.start 1) (runOnce syncPending false { done := false } (World.start 1)).2 ∧
        (runOnce syncPending false { done := false } (World.start 1)).2.killch = 0) ∧
      ((runOnce steadyThenIdle true { done := false } (World.start 1)).1 = some true ∧
        LogMsg.watcherKill ∈
          logged (World.start 1)
            (runOnce steadyThenIdle true { done := false } (World.start 1)).2 ∧
        (runOnce steadyThenIdle true { done := false } (World.start 1)).2.killch = 0) :=
  ⟨(runOnce_true_iff_kill_and_no_panic syncPending false { done := false }
      (World.start 1)).2.1 rfl rfl (by decide),
    (runOnce_true_iff_kill_and_no_panic steadyThenIdle true { done := false }
      (World.start 1)).2.2.1 (by decide)
      [{ incomings := some (some 5), handlePanics := false, forwardOk := true,
         donech := false, choice := 0 }]
      [{ incomings := none, handlePanics := false, forwardOk := true, donech := false,
         choice := 0 }]
      rfl (by decide) (Or.inr ⟨_, _, rfl, by decide⟩)⟩

/-- C9, the claim as stated fails: a kill signal waits, the `select` of
`syncWithPeer` receives it, and the deferred `proxy.Terminate()` panics. The kill
signal has been received and consumed, yet the recovered `runOnce` returns false. -/
theorem kill_received_then_panic_returns_false :
    runOnce killThenPanic false { done := false } (World.start 1) =
        (some false,
          { killch := 0, readych := 0, timers := [], connects := 1,
            log := [.runOnceConnected, .syncStart, .syncKill, .runOncePanic] }) ∧
      LogMsg.syncKill ∈
        logged (World.start 1) (runOnce killThenPanic false { done := false } (World.start 1)).2 := by
  decide

/-- C3, as amended. In every state of the retry loop of `RunWatcherServerWithRequest`
with a kill signal pending on `killch`: when the current cycle waits in the `select`
of `syncWithPeer` and the synchronization has not finished, or waits in the `select`
of `runWatcher` (after any number of forwarded requests) and neither a request nor
the watcher's done channel is ready, the kill is taken and, unless the deferred
`Terminate()` panics, the supervisor returns from that wait: it starts no backoff
timer and makes no further connection attempt. -/
theorem pending_kill_returns (requestMgr : Bool) (once : Once) (backoff : Int) (c : CycleEnv)
    (cs : List CycleEnv) (w : World) (hk : 0 < w.killch) :
    (c.conn = .ok → c.sync.panics = false → c.sync.donech = none →
        c.sync.terminatePanics = false →
        requestLoop requestMgr once backoff (c :: cs) w =
          { status := .returned, backoff := backoff,
            world :=
              { killch := w.killch - 1, readych := w.readych, timers := w.timers,
                connects := w.connects + 1,
                log := w.log ++ [.runOnceConnected, .syncStart, .syncKill] } }) ∧
      (entersLoop c once w = true → c.watch.terminatePanics = false →
        ∀ pre rest, c.watch.selects = pre ++ rest →
          (∀ p ∈ pre, forwards requestMgr w p = true) →
          (rest = [] ∨ ∃ e es, rest = e :: es ∧ onlyKill requestMgr e = true) →
          requestLoop requestMgr once backoff (c :: cs) w =
            { status := .returned, backoff := backoff,
              world :=
                { killch := w.killch - 1,
                  readych := if once.done then w.readych else w.readych + 1,
                  timers := w.timers,
                  connects := w.connects + 1,
                  log := w.log ++ [.runOnceConnected, .syncStart, .syncDone, .watcherStart,
                    .watcherKill] } }) := by
  refine ⟨?_, ?_⟩
  · intro hc hp hd ht
    have hr := runOnce_sync_kill c requestMgr once w hc hp (syncSelect_pending c.sync w hk hd)
    rw [ht] at hr
    simp only [Bool.false_eq_true, if_false] at hr
    rw [requestLoop, hr]
  · intro h ht pre rest hsel hpre hrest
    have hkill : (rest = [] ∧ 0 < w.killch) ∨
        ∃ e es, rest = e :: es ∧ watchSelect requestMgr e w = some .kill := by
      rcases hrest with rfl | ⟨e, es, rfl, ho⟩
      · exact Or.inl ⟨rfl, hk⟩
      · exact Or.inr ⟨e, es, rfl, watchSelect_pending requestMgr e w hk ho⟩
    have hr := runOnce_loop_kill c requestMgr once w pre rest h hsel hpre hkill
    rw [ht] at hr
    simp only [Bool.false_eq_true, if_false] at hr
    rw [requestLoop, hr]
    rfl

/-- Witness for C3: a kill signal waits; in the first run the synchronization is
still in progress, in the second the watcher has forwarded one request and nothing
else is ready. -/
theorem pending_kill_returns_witness :
    requestLoop false { done := false } 100 (syncPending :: [connFails]) (World.start 1) =
        { status := .returned, backoff := 100,
          world :=
            { killch := 0, readych := 0, timers := [], connects := 1,
              log := [.runOnceConnected, .syncStart, .syncKill] } } ∧
      requestLoop true { done := false } 100 (steadyThenIdle :: [connFails]) (World.start 1) =
        { status := .returned, backoff := 100,
          world :=
            { killch := 0, readych := 1, timers := [], connects := 1,
              log := [.runOnceConnected, .syncStart, .syncDone, .watcherStart,
                .watcherKill] } } :=
  ⟨(pending_kill_returns false { done := false } 100 syncPending [connFails] (World.start 1)
      (by decide)).1 rfl rfl rfl rfl,
    (pending_kill_returns true { done := false } 100 steadyThenIdle [connFails] (World.start 1)
      (by decide)).2 (by decide) rfl
      [{ incomings := some (some 5), handlePanics := false, forwardOk := true,
         donech := false, choice := 0 }]
      [{ incomings := none, handlePanics := false, forwardOk := true, donech := false,
         choice := 0 }]
      rfl (by decide) (Or.inr ⟨_, _, rfl, by decide⟩)⟩

/-- C3, the claim as stated fails, in three ways, each with a kill signal waiting
on `killch` from the start. First, `createConnection` fails in every cycle: after
three cycles the supervisor has made three connection attempts and started three
backoff timers, the kill signal is still unread, and the retry loop goes on. Second,
in the `select` of `runWatcher` the watcher's done channel is ready as well and the
runtime picks it: the supervisor starts a backoff timer with the kill still unread.
Third, the `select` of `syncWithPeer` takes the kill and the deferred
`proxy.Terminate()` panics: the supervisor starts a backoff timer although the kill
has been consumed. -/
theorem pending_kill_not_acted_on :
    0 < (World.start 1).killch ∧
      RunWatcherServerWithRequest false [connFails, connFails, connFails] (World.start 1) =
        { status := .running, backoff := 800,
          world :=
            { killch := 1, readych := 0, timers := [100000000, 200000000, 400000000],
              connects := 3, log := [.runOnceError, .runOnceError, .runOnceError] } } ∧
      RunWatcherServerWithRequest false [donePicked] (World.start 1) =
        { status := .running, backoff := 200,
          world :=
            { killch := 1, readych := 1, timers := [100000000], connects := 1,
              log := [.runOnceConnected, .syncStart, .syncDone, .watcherStart, .watcherDone,
                .runOnceWatcherTerminated] } } ∧
      RunWatcherServerWithRequest false [killThenPanic] (World.start 1) =
        { status := .running, backoff := 200,
          world :=
            { killch := 0, readych := 0, timers := [100000000], connects := 1,
              log := [.runOnceConnected, .syncStart, .syncKill, .runOncePanic] } } :=
  ⟨by decide, rfl, rfl, rfl⟩

theorem matchPeer_found (leader : String) (peerTCP : List String) :
    ∀ (l : List String) (k i : Nat), l[i]? = some leader →
      (∀ j, j < i → l[j]? ≠ some leader) →
      matchPeer leader peerTCP l k =
        (match peerTCP[k + i]? with
          | some addr => some (.ret addr)
          | none => some .panic) := by
  intro l
  induction l with
  | nil =>
    intro k i h _
    simp at h
  | cons p rest ih =>
    intro k i h hfirst
    cases i with
    | zero =>
      simp at h
      subst h
      simp [matchPeer]
    | succ i =>
      have hp : p ≠ leader := by
        have := hfirst 0 (by omega)
        simpa using this
      have hrest : rest[i]? = some leader := by simpa using h
      have hfirst1 : ∀ j, j < i → rest[j]? ≠ some leader := by
        intro j hj
        have := hfirst (j + 1) (by omega)
        simpa using this
      have := ih (k + 1) i hrest hfirst1
      simp only [matchPeer, hp, if_false]
      rw [this]
      have hk : k + 1 + i = k + (i + 1) := by omega
      rw [hk]

theorem matchPeer_none (leader : String) (peerTCP : List String) :
    ∀ (l : List String) (k : Nat), leader ∉ l → matchPeer leader peerTCP l k = none := by
  intro l
  induction l with
  | nil =>
    intro k _
    rfl
  | cons p rest ih =>
    intro k h
    have hp : p ≠ leader := by
      intro hpl
      exact h (by simp [hpl])
    have hr : leader ∉ rest := by
      intro hmem
      exact h (by simp [hmem])
    simp only [matchPeer, hp, if_false]
    exact ih (k + 1) hr

theorem findPeerToConnect_frame (e : ElectionEnv) (peerUDP peerTCP : List String) (w : World) :
    (findPeerToConnect e peerUDP peerTCP w).2.timers = w.timers ∧
      ∀ peer, (findPeerToConnect e peerUDP peerTCP w).1 = some (peer, true) →
        e.panics = false ∧ e.siteErr = false ∧ e.startNil = false ∧
          electSelect e w = some .kill := by
  unfold findPeerToConnect findPeerToConnectBody
  by_cases hp : e.panics = true
  · simp [hp, World.printf]
  by_cases hs : e.siteErr = true
  · simp [hp, hs, World.printf]
  by_cases hn : e.startNil = true
  · simp [hp, hs, hn, World.printf]
  cases hsel : electSelect e w with
  | none => simp [hp, hs, hn, World.printf]
  | some c =>
    cases c with
    | kill => simp [hp, hs, hn, World.printf]
    | result r =>
      cases r with
      | none => simp [hp, hs, hn, World.printf]
      | some leader =>
        cases hm : matchPeer leader peerTCP peerUDP 0 with
        | none => simp [hp, hs, hn, hm, World.printf]
        | some res => cases res <;> simp [hp, hs, hn, hm, World.printf]

/-- C8. For address lists of equal length: when the election emits a leader that
occurs in `peerUDP`, `findPeerToConnect` returns `(peerTCP[i], false)` for the first
index `i` with `peerUDP[i] == leader`; when the leader does not occur in `peerUDP`,
or the election channel is closed without a value, it returns `("", false)`; and it
returns `isKilled = true` only when its select has received from the kill channel. -/
theorem findPeerToConnect_spec (e : ElectionEnv) (peerUDP peerTCP : List String) (w : World)
    (hlen : peerUDP.length = peerTCP.length) :
    (∀ leader, e.panics = false → e.siteErr = false → e.startNil = false →
        electSelect e w = some (.result (some leader)) →
        (∀ i : Nat, peerUDP[i]? = some leader → (∀ j, j < i → peerUDP[j]? ≠ some leader) →
            ∃ addr, peerTCP[i]? = some addr ∧
              (findPeerToConnect e peerUDP peerTCP w).1 = some (addr, false)) ∧
          (leader ∉ peerUDP → (findPeerToConnect e peerUDP peerTCP w).1 = some ("", false))) ∧
      (e.panics = false → e.siteErr = false → e.startNil = false →
        electSelect e w = some (.result none) →
        (findPeerToConnect e peerUDP peerTCP w).1 = some ("", false)) ∧
      (∀ peer, (findPeerToConnect e peerUDP peerTCP w).1 = some (peer, true) →
        e.panics = false ∧ e.siteErr = false ∧ e.startNil = false ∧
          electSelect e w = some .kill) := by
  refine ⟨?_, ?_, (findPeerToConnect_frame e peerUDP peerTCP w).2⟩
  · intro leader hp hs hn hsel
    refine ⟨?_, ?_⟩
    · intro i hi hfirst
      have hlt : i < peerTCP.length := by
        rw [← hlen]
        by_contra hge
        rw [List.getElem?_eq_none (by omega)] at hi
        simp at hi
      refine ⟨peerTCP[i], List.getElem?_eq_getElem hlt, ?_⟩
      have hm := matchPeer_found leader peerTCP peerUDP 0 i hi hfirst
      simp only [Nat.zero_add, List.getElem?_eq_getElem hlt] at hm
      simp [findPeerToConnect, findPeerToConnectBody, hp, hs, hn, hsel, hm]
    · intro hnot
      have hm := matchPeer_none leader peerTCP peerUDP 0 hnot
      simp [findPeerToConnect, findPeerToConnectBody, hp, hs, hn, hsel, hm]
  · intro hp hs hn hsel
    simp [findPeerToConnect, findPeerToConnectBody, hp, hs, hn, hsel]

/-- Witness for C8: two peers, the election emits the UDP address of the second. -/
theorem findPeerToConnect_spec_witness :
    (findPeerToConnect electsSecond ["udp1", "udp2"] ["tcp1", "tcp2"] (World.start 0)).1 =
      some ("tcp2", false) := by
  obtain ⟨addr, h1, h2⟩ :=
    ((findPeerToConnect_spec electsSecond ["udp1", "udp2"] ["tcp1", "tcp2"] (World.start 0)
      rfl).1 "udp2" rfl rfl rfl rfl).1 1 rfl (by
        intro j hj
        have hj0 : j = 0 := by omega
        subst hj0
        decide)
  have ha : addr = "tcp2" := by
    simpa using h1.symm
  rw [h2, ha]

theorem wrapInt64_small (x : Int) (h0 : 0 ≤ x) (h1 : x ≤ 20000000000) : wrapInt64 x = x := by
  unfold wrapInt64
  omega

theorem backoffMs_bounds (n : Nat) : 100 ≤ backoffMs n ∧ backoffMs n ≤ 10000 := by
  unfold backoffMs
  have h : (1 : Int) ≤ 2 ^ n := one_le_pow₀ (by norm_num)
  omega

theorem backoffMs_succ (n : Nat) :
    backoffMs (n + 1) = min (backoffMs n + backoffMs n) 10000 := by
  unfold backoffMs
  rw [pow_succ]
  have h : (1 : Int) ≤ 2 ^ n := one_le_pow₀ (by norm_num)
  omega

theorem nextBackoff_backoffMs (n : Nat) : nextBackoff (backoffMs n) = backoffMs (n + 1) := by
  obtain ⟨h0, h1⟩ := backoffMs_bounds n
  unfold nextBackoff MAX_RETRY_BACKOFF
  rw [wrapInt64_small _ (by omega) (by omega), backoffMs_succ]
  simp only []
  split <;> omega

theorem sleep_backoffMs (n : Nat) (w : World) :
    sleep (backoffMs n) w = { w with timers := w.timers ++ [backoffMs n * 1000000] } := by
  obtain ⟨h0, h1⟩ := backoffMs_bounds n
  unfold sleep Millisecond
  rw [wrapInt64_small _ (by omega) (by omega)]

theorem range_succ_map (k : Nat) (f : Nat → Int) :
    (List.range (k + 1)).map f = f 0 :: (List.range k).map (fun i => f (i + 1)) := by
  rw [List.range_succ_eq_map]
  simp [List.map_map, Function.comp_def]

theorem requestLoop_timers (requestMgr : Bool) (once : Once) :
    ∀ (cs : List CycleEnv) (n : Nat) (w : World),
      ∃ k, (requestLoop requestMgr once (backoffMs n) cs w).world.timers =
          w.timers ++ (List.range k).map (fun i => backoffMs (n + i) * 1000000) ∧
        (requestLoop requestMgr once (backoffMs n) cs w).backoff = backoffMs (n + k) ∧
        ((requestLoop requestMgr once (backoffMs n) cs w).status = .running →
          k = cs.length) := by
  intro cs
  induction cs with
  | nil =>
    intro n w
    exact ⟨0, by simp [requestLoop]⟩
  | cons c cs ih =>
    intro n w
    obtain ⟨ms, -, ht, -, -⟩ := runOnce_spec c requestMgr once w
    unfold requestLoop
    revert ht
    cases runOnce c requestMgr once w with
    | mk r w1 =>
      intro ht
      simp only at ht
      cases r with
      | none => exact ⟨0, by simp [ht]⟩
      | some b =>
        cases b with
        | true => exact ⟨0, by simp [ht]⟩
        | false =>
          simp only []
          obtain ⟨k, h1, h2, h3⟩ := ih (n + 1) (sleep (backoffMs n) w1)
          rw [nextBackoff_backoffMs]
          refine ⟨k + 1, ?_, ?_, ?_⟩
          · rw [h1, sleep_backoffMs, range_succ_map]
            simp [ht, Nat.add_assoc, Nat.add_comm 1]
          · rw [h2]
            congr 1
            omega
          · intro hs
            simp [h3 hs]

theorem electionLoop_timers (peerUDP peerTCP : List String) (requestMgr : Bool) (once : Once) :
    ∀ (cs : List (ElectionEnv × CycleEnv)) (n : Nat) (w : World),
      ∃ k, (electionLoop peerUDP peerTCP requestMgr once (backoffMs n) cs w).world.timers =
          w.timers ++ (List.range k).map (fun i => backoffMs (n + i) * 1000000) ∧
        (electionLoop peerUDP peerTCP requestMgr once (backoffMs n) cs w).backoff =
          backoffMs (n + k) ∧
        ((electionLoop peerUDP peerTCP requestMgr once (backoffMs n) cs w).status = .running →
          k = cs.length) := by
  intro cs
  induction cs with
  | nil =>
    intro n w
    exact ⟨0, by simp [electionLoop]⟩
  | cons ec cs ih =>
    intro n w
    obtain ⟨e, c⟩ := ec
    have hf := (findPeerToConnect_frame e peerUDP peerTCP w).1
    unfold electionLoop
    revert hf
    cases findPeerToConnect e peerUDP peerTCP w with
    | mk r w1 =>
      intro hf
      simp only at hf
      have step : ∀ w2 : World, w2.timers = w.timers →
          ∃ k, (electionLoop peerUDP peerTCP requestMgr once (nextBackoff (backoffMs n)) cs
              (sleep (backoffMs n) w2)).world.timers =
              w.timers ++ (List.range k).map (fun i => backoffMs (n + i) * 1000000) ∧
            (electionLoop peerUDP peerTCP requestMgr once (nextBackoff (backoffMs n)) cs
              (sleep (backoffMs n) w2)).backoff = backoffMs (n + k) ∧
            ((electionLoop peerUDP peerTCP requestMgr once (nextBackoff (backoffMs n)) cs
              (sleep (backoffMs n) w2)).status = .running → k = (cs.length + 1)) := by
        intro w2 hw2
        obtain ⟨k, h1, h2, h3⟩ := ih (n + 1) (sleep (backoffMs n) w2)
        rw [nextBackoff_backoffMs]
        refine ⟨k + 1, ?_, ?_, ?_⟩
        · rw [h1, sleep_backoffMs, range_succ_map]
          simp [hw2, Nat.add_assoc, Nat.add_comm 1]
        · rw [h2]
          congr 1
          omega
        · intro hs
          simp [h3 hs]
      cases r with
      | none => exact ⟨0, by simp [hf]⟩
      | some pk =>
        obtain ⟨peer, isKilled⟩ := pk
        simp only []
        by_cases hk : isKilled = true
        · exact ⟨0, by simp [hk, hf]⟩
        · by_cases hpeer : peer = ""
          · simpa [hk, hpeer] using step w1 hf
          · obtain ⟨ms, -, ht, -, -⟩ := runOnce_spec c requestMgr once w1
            simp only [hk, hpeer, ne_eq, not_false_eq_true, if_true, if_false]
            revert ht
            cases runOnce c requestMgr once w1 with
            | mk r2 w2 =>
              intro ht
              simp only at ht
              cases r2 with
              | none => exact ⟨0, by simp [ht, hf]⟩
              | some b =>
                cases b with
                | true => exact ⟨0, by simp [ht, hf]⟩
                | false => simpa using step w2 (by rw [ht, hf])

theorem requestLoop_snoc (requestMgr : Bool) (once : Once) (c : CycleEnv) :
    ∀ (cs : List CycleEnv) (b : Int) (w : World),
      requestLoop requestMgr once b (cs ++ [c]) w =
        if (requestLoop requestMgr once b cs w).status = .running then
          requestLoop requestMgr once (requestLoop requestMgr once b cs w).backoff [c]
            (requestLoop requestMgr once b cs w).world
        else requestLoop requestMgr once b cs w := by
  intro cs
  induction cs with
  | nil =>
    intro b w
    simp [requestLoop]
  | cons a cs ih =>
    intro b w
    simp only [List.cons_append]
    rw [requestLoop, requestLoop.eq_2]
    rcases runOnce a requestMgr once w with ⟨r, w1⟩
    cases r with
    | none => simp
    | some v =>
      cases v with
      | true => simp
      | false => exact ih _ _

theorem electionLoop_snoc (peerUDP peerTCP : List String) (requestMgr : Bool) (once : Once)
    (ec : ElectionEnv × CycleEnv) :
    ∀ (es : List (ElectionEnv × CycleEnv)) (b : Int) (w : World),
      electionLoop peerUDP peerTCP requestMgr once b (es ++ [ec]) w =
        if (electionLoop peerUDP peerTCP requestMgr once b es w).status = .running then
          electionLoop peerUDP peerTCP requestMgr once
            (electionLoop peerUDP peerTCP requestMgr once b es w).backoff [ec]
            (electionLoop peerUDP peerTCP requestMgr once b es w).world
        else electionLoop peerUDP peerTCP requestMgr once b es w := by
  intro es
  induction es with
  | nil =>
    intro b w
    simp [electionLoop]
  | cons a es ih =>
    intro b w
    obtain ⟨e, c⟩ := a
    simp only [List.cons_append]
    rw [electionLoop, electionLoop.eq_2]
    rcases findPeerToConnect e peerUDP peerTCP w with ⟨r, w1⟩
    cases r with
    | none => simp
    | some pk =>
      obtain ⟨peer, isKilled⟩ := pk
      simp only []
      by_cases hk : isKilled = true
      · simp [hk]
      · by_cases hpeer : peer = ""
        · simp only [hk, hpeer, ne_eq, not_true_eq_false, if_false, Bool.false_eq_true]
          exact ih _ _
        · simp only [hk, hpeer, ne_eq, not_false_eq_true, if_true, if_false]
          rcases runOnce c requestMgr once w1 with ⟨r2, w2⟩
          cases r2 with
          | none => simp
          | some v =>
            cases v with
            | true => simp
            | false => exact ih _ _

theorem range_succ_map_append (k : Nat) (f : Nat → Int) :
    (List.range (k + 1)).map f = (List.range k).map f ++ [f k] := by
  rw [List.range_succ]
  simp

theorem request_all_fail (requestMgr : Bool) (w : World) :
    ∀ cs : List CycleEnv,
      (∀ (i : Nat) (c : CycleEnv), cs[i]? = some c →
        (runOnce c requestMgr { done := false }
          (RunWatcherServerWithRequest requestMgr (cs.take i) w).world).1 = some false) →
      (RunWatcherServerWithRequest requestMgr cs w).status = .running ∧
        (RunWatcherServerWithRequest requestMgr cs w).backoff = backoffMs cs.length ∧
        (RunWatcherServerWithRequest requestMgr cs w).world.timers =
          w.timers ++ (List.range cs.length).map (fun n => backoffMs n * 1000000) := by
  intro cs
  induction cs using List.reverseRecOn with
  | nil =>
    intro _
    refine ⟨rfl, ?_, by simp [RunWatcherServerWithRequest, requestLoop]⟩
    simp [RunWatcherServerWithRequest, requestLoop, RETRY_BACKOFF, backoffMs]
  | append_singleton l a ih =>
    intro H
    have Hl : ∀ (i : Nat) (c : CycleEnv), l[i]? = some c →
        (runOnce c requestMgr { done := false }
          (RunWatcherServerWithRequest requestMgr (l.take i) w).world).1 = some false := by
      intro i c hi
      have hlt : i < l.length := by
        by_contra hge
        rw [List.getElem?_eq_none (by omega)] at hi
        simp at hi
      have := H i c (by rw [List.getElem?_append_left hlt]; exact hi)
      rwa [List.take_append_of_le_length (by omega)] at this
    obtain ⟨h1, h2, h3⟩ := ih Hl
    have Ha := H l.length a (by simp)
    rw [List.take_left'  rfl] at Ha
    obtain ⟨ms, -, ht, -, -⟩ := runOnce_spec a requestMgr { done := false }
      (RunWatcherServerWithRequest requestMgr l w).world
    have hrun : RunWatcherServerWithRequest requestMgr (l ++ [a]) w =
        { status := .running, backoff := backoffMs (l.length + 1),
          world := sleep (backoffMs l.length)
            (runOnce a requestMgr { done := false }
              (RunWatcherServerWithRequest requestMgr l w).world).2 } := by
      unfold RunWatcherServerWithRequest at h1 h2 Ha ⊢
      rw [requestLoop_snoc, if_pos h1, h2, requestLoop]
      revert Ha
      rcases runOnce a requestMgr { done := false }
          (requestLoop requestMgr { done := false } RETRY_BACKOFF l w).world with ⟨r, w1⟩
      intro Ha
      simp only at Ha
      subst Ha
      simp only [requestLoop, nextBackoff_backoffMs]
    rw [hrun]
    refine ⟨rfl, by simp, ?_⟩
    simp only [List.length_append, List.length_cons, List.length_nil, Nat.zero_add]
    rw [sleep_backoffMs, range_succ_map_append]
    simp [ht, h3]

theorem election_all_fail (peerUDP peerTCP : List String) (requestMgr : Bool) (w : World) :
    ∀ es : List (ElectionEnv × CycleEnv),
      (∀ (i : Nat) (e : ElectionEnv) (c : CycleEnv), es[i]? = some (e, c) →
        ∃ peer,
          (findPeerToConnect e peerUDP peerTCP
            (RunWatcherServerWithElection peerUDP peerTCP requestMgr (es.take i) w).world).1 =
              some (peer, false) ∧
          (peer = "" ∨
            (runOnce c requestMgr { done := false }
              (findPeerToConnect e peerUDP peerTCP
                (RunWatcherServerWithElection peerUDP peerTCP requestMgr (es.take i)
                  w).world).2).1 = some false)) →
      (RunWatcherServerWithElection peerUDP peerTCP requestMgr es w).status = .running ∧
        (RunWatcherServerWithElection peerUDP peerTCP requestMgr es w).backoff =
          backoffMs es.length ∧
        (RunWatcherServerWithElection peerUDP peerTCP requestMgr es w).world.timers =
          w.timers ++ (List.range es.length).map (fun n => backoffMs n * 1000000) := by
  intro es
  induction es using List.reverseRecOn with
  | nil =>
    intro _
    refine ⟨rfl, ?_, by simp [RunWatcherServerWithElection, electionLoop]⟩
    simp [RunWatcherServerWithElection, electionLoop, RETRY_BACKOFF, backoffMs]
  | append_singleton l a ih =>
    intro H
    obtain ⟨e, c⟩ := a
    have Hl : ∀ (i : Nat) (e : ElectionEnv) (c : CycleEnv), l[i]? = some (e, c) →
        ∃ peer,
          (findPeerToConnect e peerUDP peerTCP
            (RunWatcherServerWithElection peerUDP peerTCP requestMgr (l.take i) w).world).1 =
              some (peer, false) ∧
          (peer = "" ∨
            (runOnce c requestMgr { done := false }
              (findPeerToConnect e peerUDP peerTCP
                (RunWatcherServerWithElection peerUDP peerTCP requestMgr (l.take i)
                  w).world).2).1 = some false) := by
      intro i e1 c1 hi
      have hlt : i < l.length := by
        by_contra hge
        rw [List.getElem?_eq_none (by omega)] at hi
        simp at hi
      have := H i e1 c1 (by rw [List.getElem?_append_left hlt]; exact hi)
      rwa [List.take_append_of_le_length (by omega)] at this
    obtain ⟨h1, h2, h3⟩ := ih Hl
    obtain ⟨peer, Hf, Hr⟩ := H l.length e c (by simp)
    rw [List.take_left' rfl] at Hf Hr
    have hft := (findPeerToConnect_frame e peerUDP peerTCP
      (RunWatcherServerWithElection peerUDP peerTCP requestMgr l w).world).1
    obtain ⟨ms, -, ht, -, -⟩ := runOnce_spec c requestMgr { done := false }
      (findPeerToConnect e peerUDP peerTCP
        (RunWatcherServerWithElection peerUDP peerTCP requestMgr l w).world).2
    have hrun : ∃ w2 : World,
        w2.timers = (RunWatcherServerWithElection peerUDP peerTCP requestMgr l w).world.timers ∧
        RunWatcherServerWithElection peerUDP peerTCP requestMgr (l ++ [(e, c)]) w =
          { status := .running, backoff := backoffMs (l.length + 1),
            world := sleep (backoffMs l.length) w2 } := by
      unfold RunWatcherServerWithElection at h1 h2 Hf Hr hft ht ⊢
      rw [electionLoop_snoc, if_pos h1, h2, electionLoop]
      revert Hf Hr hft ht
      rcases findPeerToConnect e peerUDP peerTCP
          (electionLoop peerUDP peerTCP requestMgr { done := false } RETRY_BACKOFF l w).world
        with ⟨r, w1⟩
      intro Hf Hr hft ht
      simp only at Hf Hr hft ht
      subst Hf
      simp only [Bool.false_eq_true, if_false]
      by_cases hpeer : peer = ""
      · refine ⟨w1, hft, ?_⟩
        simp only [hpeer, ne_eq, not_true_eq_false, if_false, electionLoop,
          nextBackoff_backoffMs]
      · have Hr1 := Hr.resolve_left hpeer
        refine ⟨(runOnce c requestMgr { done := false } w1).2, by rw [ht, hft], ?_⟩
        simp only [hpeer, ne_eq, not_false_eq_true, if_true]
        revert Hr1
        rcases runOnce c requestMgr { done := false } w1 with ⟨r2, w2⟩
        intro Hr1
        simp only at Hr1
        subst Hr1
        simp only [electionLoop, nextBackoff_backoffMs]
    obtain ⟨w2, hw2, hrun⟩ := hrun
    rw [hrun]
    refine ⟨rfl, by simp, ?_⟩
    simp only [List.length_append, List.length_cons, List.length_nil, Nat.zero_add]
    rw [sleep_backoffMs, range_succ_map_append]
    simp [hw2, h3]

/-- C2. In `RunWatcherServerWithRequest` and in `RunWatcherServerWithElection`, when
each of the listed cycles fails in the world the supervisor has reached before it
(`runOnce` returns false, or the election yields no peer), a backoff timer is started
after every one of them and the supervisor is still in its retry loop: the timers
are, in order, `min(100 * 2^n, 10000)` milliseconds for `n = 0, 1, 2, ...` (100, 200,
400, ..., 6400, 10000, 10000, ...), one for each cycle, and the variable `backoff`
then holds `min(100 * 2^k, 10000)` for `k` cycles. Whatever the cycles do, the timers
started are an initial part of that sequence. The values start at `RETRY_BACKOFF`,
never decrease and never exceed `MAX_RETRY_BACKOFF`. -/
theorem backoff_sequence (requestMgr : Bool) (cs : List CycleEnv)
    (peerUDP peerTCP : List String) (es : List (ElectionEnv × CycleEnv)) (w : World) :
    ((∀ (i : Nat) (c : CycleEnv), cs[i]? = some c →
          (runOnce c requestMgr { done := false }
            (RunWatcherServerWithRequest requestMgr (cs.take i) w).world).1 = some false) →
        (RunWatcherServerWithRequest requestMgr cs w).status = .running ∧
          (RunWatcherServerWithRequest requestMgr cs w).backoff =
            min (100 * 2 ^ cs.length) 10000 ∧
          (RunWatcherServerWithRequest requestMgr cs w).world.timers =
            w.timers ++
              (List.range cs.length).map (fun n => min (100 * 2 ^ n) 10000 * Millisecond)) ∧
      ((∀ (i : Nat) (e : ElectionEnv) (c : CycleEnv), es[i]? = some (e, c) →
          ∃ peer,
            (findPeerToConnect e peerUDP peerTCP
              (RunWatcherServerWithElection peerUDP peerTCP requestMgr (es.take i) w).world).1 =
                some (peer, false) ∧
            (peer = "" ∨
              (runOnce c requestMgr { done := false }
                (findPeerToConnect e peerUDP peerTCP
                  (RunWatcherServerWithElection peerUDP peerTCP requestMgr (es.take i)
                    w).world).2).1 = some false)) →
        (RunWatcherServerWithElection peerUDP peerTCP requestMgr es w).status = .running ∧
          (RunWatcherServerWithElection peerUDP peerTCP requestMgr es w).backoff =
            min (100 * 2 ^ es.length) 10000 ∧
          (RunWatcherServerWithElection peerUDP peerTCP requestMgr es w).world.timers =
            w.timers ++
              (List.range es.length).map (fun n => min (100 * 2 ^ n) 10000 * Millisecond)) ∧
      (∃ k, (RunWatcherServerWithRequest requestMgr cs w).world.timers =
          w.timers ++ (List.range k).map (fun n => min (100 * 2 ^ n) 10000 * Millisecond) ∧
        (RunWatcherServerWithRequest requestMgr cs w).backoff = min (100 * 2 ^ k) 10000 ∧
        ((RunWatcherServerWithRequest requestMgr cs w).status = .running → k = cs.length)) ∧
      (∃ k, (RunWatcherServerWithElection peerUDP peerTCP requestMgr es w).world.timers =
          w.timers ++ (List.range k).map (fun n => min (100 * 2 ^ n) 10000 * Millisecond) ∧
        (RunWatcherServerWithElection peerUDP peerTCP requestMgr es w).backoff =
          min (100 * 2 ^ k) 10000 ∧
        ((RunWatcherServerWithElection peerUDP peerTCP requestMgr es w).status = .running →
          k = es.length)) ∧
      (min (100 * 2 ^ 0) 10000 = RETRY_BACKOFF ∧
        ∀ n : Nat, (min (100 * 2 ^ n) 10000 : Int) ≤ min (100 * 2 ^ (n + 1)) 10000 ∧
          (min (100 * 2 ^ n) 10000 : Int) ≤ MAX_RETRY_BACKOFF) := by
  have hR : RETRY_BACKOFF = backoffMs 0 := by
    unfold RETRY_BACKOFF backoffMs
    norm_num
  refine ⟨?_, ?_, ?_, ?_, ?_, ?_⟩
  · intro H
    obtain ⟨h1, h2, h3⟩ := request_all_fail requestMgr w cs H
    refine ⟨h1, ?_, ?_⟩
    · rw [h2]
      rfl
    · rw [h3]
      rfl
  · intro H
    obtain ⟨h1, h2, h3⟩ := election_all_fail peerUDP peerTCP requestMgr w es H
    refine ⟨h1, ?_, ?_⟩
    · rw [h2]
      rfl
    · rw [h3]
      rfl
  · obtain ⟨k, h1, h2, h3⟩ := requestLoop_timers requestMgr { done := false } cs 0 w
    refine ⟨k, ?_, ?_, ?_⟩
    · unfold RunWatcherServerWithRequest
      rw [hR, h1]
      simp [backoffMs, Millisecond]
    · unfold RunWatcherServerWithRequest
      rw [hR, h2]
      simp [backoffMs]
    · unfold RunWatcherServerWithRequest
      rw [hR]
      exact h3
  · obtain ⟨k, h1, h2, h3⟩ :=
      electionLoop_timers peerUDP peerTCP requestMgr { done := false } es 0 w
    refine ⟨k, ?_, ?_, ?_⟩
    · unfold RunWatcherServerWithElection
      rw [hR, h1]
      simp [backoffMs, Millisecond]
    · unfold RunWatcherServerWithElection
      rw [hR, h2]
      simp [backoffMs]
    · unfold RunWatcherServerWithElection
      rw [hR]
      exact h3
  · unfold RETRY_BACKOFF
    norm_num
  · intro n
    have h1 := backoffMs_succ n
    have h2 := backoffMs_bounds n
    unfold backoffMs at h1 h2
    unfold MAX_RETRY_BACKOFF
    omega

/-- Witness for C2: the leader is unreachable for nine cycles in a row, and two
election cycles end in a failed connection. -/
theorem backoff_sequence_witness :
    ((RunWatcherServerWithRequest false (List.replicate 9 connFails) (World.start 0)).status =
          .running ∧
        (RunWatcherServerWithRequest false (List.replicate 9 connFails) (World.start 0)).backoff =
          10000 ∧
        (RunWatcherServerWithRequest false (List.replicate 9 connFails)
            (World.start 0)).world.timers =
          [100000000, 200000000, 400000000, 800000000, 1600000000, 3200000000, 6400000000,
            10000000000, 10000000000]) ∧
      ((RunWatcherServerWithElection ["udp1", "udp2"] ["tcp1", "tcp2"] false
            [(electsSecond, connFails), (electsSecond, connFails)] (World.start 0)).status =
          .running ∧
        (RunWatcherServerWithElection ["udp1", "udp2"] ["tcp1", "tcp2"] false
            [(electsSecond, connFails), (electsSecond, connFails)] (World.start 0)).backoff =
          400 ∧
        (RunWatcherServerWithElection ["udp1", "udp2"] ["tcp1", "tcp2"] false
            [(electsSecond, connFails), (electsSecond, connFails)]
            (World.start 0)).world.timers = [100000000, 200000000]) := by
  have h1 := (backoff_sequence false (List.replicate 9 connFails) ["udp1", "udp2"]
    ["tcp1", "tcp2"] [(electsSecond, connFails), (electsSecond, connFails)]
    (World.start 0)).1 (by
      intro i c hi
      have hc : c = connFails := List.eq_of_mem_replicate (List.getElem?_mem hi)
      subst hc
      simp [runOnce, runOnceBody, connFails])
  have h2 := (backoff_sequence false (List.replicate 9 connFails) ["udp1", "udp2"]
    ["tcp1", "tcp2"] [(electsSecond, connFails), (electsSecond, connFails)]
    (World.start 0)).2.1 (by
      intro i e c hi
      rcases i with _ | _ | i
      · simp only [List.getElem?_cons_zero, Option.some.injEq, Prod.mk.injEq] at hi
        obtain ⟨rfl, rfl⟩ := hi
        exact ⟨"tcp2", by decide, Or.inr (by decide)⟩
      · simp only [List.getElem?_cons_succ, List.getElem?_cons_zero, Option.some.injEq,
          Prod.mk.injEq] at hi
        obtain ⟨rfl, rfl⟩ := hi
        exact ⟨"tcp2", by decide, Or.inr (by decide)⟩
      · simp at hi)
  refine ⟨⟨h1.1, ?_, ?_⟩, ⟨h2.1, ?_, ?_⟩⟩
  · rw [h1.2.1]
    rfl
  · rw [h1.2.2]
    rfl
  · rw [h2.2.1]
    rfl
  · rw [h2.2.2]
    rfl

/-- C12. Mismatched address lists do not make `findPeerToConnect` fail: when
`peerTCP` is shorter than `peerUDP` and the election emits a leader whose first
index `i` in `peerUDP` is not an index of `peerTCP`, the panic of `peerTCP[i]` is
recovered and the function returns `("", false)`. `RunWatcherServerWithElection`
then neither connects nor returns: after that cycle it is still in its retry loop,
no `createConnection` has been called, one backoff timer of 100 ms has been started
and the backoff is 200 ms; and it retries, so that a second cycle whose election
site cannot be created runs and is followed by a timer of 200 ms. -/
theorem findPeerToConnect_mismatched (e : ElectionEnv) (peerUDP peerTCP : List String)
    (w : World) (leader : String) (i : Nat)
    (_hlen : peerTCP.length < peerUDP.length)
    (hp : e.panics = false) (hs : e.siteErr = false) (hn : e.startNil = false)
    (hsel : electSelect e w = some (.result (some leader)))
    (hi : peerUDP[i]? = some leader) (hfirst : ∀ j, j < i → peerUDP[j]? ≠ some leader)
    (hge : peerTCP.length ≤ i) :
    findPeerToConnect e peerUDP peerTCP w = (some ("", false), w.printf .findPeerPanic) ∧
      (∀ (requestMgr : Bool) (c : CycleEnv),
        RunWatcherServerWithElection peerUDP peerTCP requestMgr [(e, c)] w =
          { status := .running, backoff := 200,
            world :=
              { killch := w.killch, readych := w.readych,
                timers := w.timers ++ [100000000], connects := w.connects,
                log := w.log ++ [.findPeerPanic] } }) ∧
      (∀ (requestMgr : Bool) (c c2 : CycleEnv) (e2 : ElectionEnv),
        e2.panics = false → e2.siteErr = true →
        RunWatcherServerWithElection peerUDP peerTCP requestMgr [(e, c), (e2, c2)] w =
          { status := .running, backoff := 400,
            world :=
              { killch := w.killch, readych := w.readych,
                timers := w.timers ++ [100000000, 200000000], connects := w.connects,
                log := w.log ++ [.findPeerPanic, .findPeerError] } }) ∧
      ∀ (requestMgr : Bool) (once : Once) (backoff : Int) (c : CycleEnv)
        (cs : List (ElectionEnv × CycleEnv)),
        electionLoop peerUDP peerTCP requestMgr once backoff ((e, c) :: cs) w =
          electionLoop peerUDP peerTCP requestMgr once (nextBackoff backoff) cs
            (sleep backoff (w.printf .findPeerPanic)) := by
  have hm := matchPeer_found leader peerTCP peerUDP 0 i hi hfirst
  simp only [Nat.zero_add, List.getElem?_eq_none hge] at hm
  have hf : findPeerToConnect e peerUDP peerTCP w =
      (some ("", false), w.printf .findPeerPanic) := by
    simp [findPeerToConnect, findPeerToConnectBody, hp, hs, hn, hsel, hm]
  have hstep : ∀ (requestMgr : Bool) (once : Once) (backoff : Int) (c : CycleEnv)
      (cs : List (ElectionEnv × CycleEnv)),
      electionLoop peerUDP peerTCP requestMgr once backoff ((e, c) :: cs) w =
        electionLoop peerUDP peerTCP requestMgr once (nextBackoff backoff) cs
          (sleep backoff (w.printf .findPeerPanic)) := by
    intro requestMgr once backoff c cs
    rw [electionLoop, hf]
    simp
  have hb1 : nextBackoff RETRY_BACKOFF = 200 := by decide
  have hb2 : nextBackoff 200 = 400 := by decide
  have hs1 : ∀ v : World, sleep RETRY_BACKOFF v = { v with timers := v.timers ++ [100000000] } := by
    intro v
    rfl
  have hs2 : ∀ v : World, sleep 200 v = { v with timers := v.timers ++ [200000000] } := by
    intro v
    rfl
  refine ⟨hf, ?_, ?_, hstep⟩
  · intro requestMgr c
    unfold RunWatcherServerWithElection
    rw [hstep, hb1, hs1]
    simp [electionLoop, World.printf]
  · intro requestMgr c c2 e2 h1 h2
    unfold RunWatcherServerWithElection
    rw [hstep, hb1, hs1, electionLoop]
    have hf2 : ∀ v : World, findPeerToConnect e2 peerUDP peerTCP v =
        (some ("", false), v.printf .findPeerError) := by
      intro v
      simp [findPeerToConnect, findPeerToConnectBody, h1, h2]
    rw [hf2]
    simp only [Bool.false_eq_true, if_false, ne_eq, not_true_eq_false]
    rw [hb2, hs2]
    simp [electionLoop, World.printf]

/-- Witness for C12: two UDP addresses, one TCP address, and the election emits
the second UDP address. -/
theorem findPeerToConnect_mismatched_witness :
    findPeerToConnect electsSecond ["udp1", "udp2"] ["tcp1"] (World.start 0) =
        (some ("", false), (World.start 0).printf .findPeerPanic) ∧
      RunWatcherServerWithElection ["udp1", "udp2"] ["tcp1"] false
          [(electsSecond, connFails)] (World.start 0) =
        { status := .running, backoff := 200,
          world :=
            { killch := 0, readych := 0, timers := [100000000], connects := 0,
              log := [.findPeerPanic] } } := by
  have h := findPeerToConnect_mismatched electsSecond ["udp1", "udp2"] ["tcp1"] (World.start 0)
    "udp2" 1 (by decide) rfl rfl rfl rfl rfl
    (by
      intro j hj
      have hj0 : j = 0 := by omega
      subst hj0
      decide)
    (by decide)
  exact ⟨h.1, h.2.1 false connFails⟩

/-! ## Properties of the message factory -/

/-- C10. Every message built by the factory carries the protocol version in
`Version` and each argument, unchanged, in the field that bears its name:
`CreateProposal` yields `(Txnid, Fid, ReqId, OpCode, Key, Content)`, `CreateAccept`
`(Txnid, Fid)`, `CreateCommit` `Txnid`, `CreateLeaderInfo` stores the epoch as
`AcceptedEpoch` and `CreateNewLeader` stores it as `CurrentEpoch`, and likewise for
the other constructors. -/
theorem factory_fields (ProtoVersion : Nat) :
    (∀ txnid fid reqId op key content,
        CreateProposal ProtoVersion txnid fid reqId op key content =
          { Version := some ProtoVersion, Txnid := some txnid, Fid := some fid,
            ReqId := some reqId, OpCode := some op, Key := some key, Content := content }) ∧
      (∀ txnid fid,
        CreateAccept ProtoVersion txnid fid =
          { Version := some ProtoVersion, Txnid := some txnid, Fid := some fid }) ∧
      (∀ txnid,
        CreateCommit ProtoVersion txnid =
          { Version := some ProtoVersion, Txnid := some txnid }) ∧
      (∀ fid reqId err,
        CreateAbort ProtoVersion fid reqId err =
          { Version := some ProtoVersion, Fid := some fid, ReqId := some reqId,
            Error := some err }) ∧
      (∀ fid reqId err,
        CreateResponse ProtoVersion fid reqId err =
          { Version := some ProtoVersion, Fid := some fid, ReqId := some reqId,
            Error := some err }) ∧
      (∀ round status epoch cndId loggedTxnId committedTxnId solicit,
        CreateVote ProtoVersion round status epoch cndId loggedTxnId committedTxnId solicit =
          { Version := some ProtoVersion, Round := some round, Status := some status,
            Epoch := some epoch, CndId := some cndId, CndLoggedTxnId := some loggedTxnId,
            CndCommittedTxnId := some committedTxnId, Solicit := some solicit }) ∧
      (∀ txnid opCode key content,
        CreateLogEntry ProtoVersion txnid opCode key content =
          { Version := some ProtoVersion, Txnid := some txnid, OpCode := some opCode,
            Key := some key, Content := content }) ∧
      (∀ epoch fid voting,
        CreateFollowerInfo ProtoVersion epoch fid voting =
          { Version := some ProtoVersion, AcceptedEpoch := some epoch, Fid := some fid,
            Voting := some voting }) ∧
      (∀ epoch,
        CreateLeaderInfo ProtoVersion epoch =
          { Version := some ProtoVersion, AcceptedEpoch := some epoch }) ∧
      (∀ txid epoch,
        CreateEpochAck ProtoVersion txid epoch =
          { Version := some ProtoVersion, LastLoggedTxid := some txid,
            CurrentEpoch := some epoch }) ∧
      (∀ epoch,
        CreateNewLeader ProtoVersion epoch =
          { Version := some ProtoVersion, CurrentEpoch := some epoch }) ∧
      CreateNewLeaderAck ProtoVersion = { Version := some ProtoVersion } ∧
      (∀ reqid opCode key content,
        CreateRequest ProtoVersion reqid opCode key content =
          { Version := some ProtoVersion, ReqId := some reqid, OpCode := some opCode,
            Key := some key, Content := content }) := by
  refine ⟨?_, ?_, ?_, ?_, ?_, ?_, ?_, ?_, ?_, ?_, ?_, ?_, ?_⟩ <;> intros <;> rfl

end Gometa
